import Mathlib

/-!
Shallow embedding of the ops-cli multi-target deployment orchestrator
(src/commands/deploy.rs), the pool status command (src/commands/pool.rs)
and the exit-code convention of src/main.rs.

Effectful Rust code is modelled by explicit "world" records that fix the
outcome of every external operation (remote command execution, file
system reads, control-plane API calls, interactive prompts), and every
embedded function additionally returns the list of external-effect
events it performed, in order.  Errors (`anyhow::Result`) are modelled
by `Except String`; the error string is the outermost context message,
which is what `e.to_string()` renders and what the source matches on.
-/

namespace Ops

/-- types.rs `DeployTarget` (fields as consumed by deploy.rs / pool.rs). -/
structure DeployTarget where
  node_id : Int
  domain : String
  ip_address : String
  hostname : Option String
  region : Option String
  zone : Option String
  weight : Int
  is_primary : Bool
  status : String
deriving Repr, DecidableEq, Inhabited

/-- types.rs `GitConfig` (repo + optional deploy key path). -/
structure GitConfig where
  repo : String
  ssh_key : Option String
deriving Repr, DecidableEq, Inhabited

/-- types.rs `RegistryConfig`. -/
structure RegistryConfig where
  url : String
  username : String
  token : String
deriving Repr, DecidableEq, Inhabited

/-- types.rs `DeployConfig`. -/
structure DeployConfig where
  source : String
  branch : Option String
  git : Option GitConfig
  compose_files : Option (List String)
  registry : Option RegistryConfig
deriving Repr, DecidableEq, Inhabited

/-- types.rs `AppDef` (with the `port` field consumed by deploy.rs). -/
structure AppDef where
  name : String
  services : List String
  domains : List String
  port : Option Nat
deriving Repr, DecidableEq, Inhabited

/-- types.rs `EnvFileMapping`; `local` is a Lean keyword, renamed `local_path`. -/
structure EnvFileMapping where
  local_path : String
  remote : String
deriving Repr, DecidableEq, Inhabited

/-- types.rs `SyncMapping`. -/
structure SyncMapping where
  local_path : String
  remote : String
deriving Repr, DecidableEq, Inhabited

/-- types.rs `RouteDef`. -/
structure RouteDef where
  domain : String
  port : Nat
  ssl : Bool
deriving Repr, DecidableEq, Inhabited

/-- types.rs `HealthCheck`. -/
structure HealthCheck where
  name : String
  url : String
deriving Repr, DecidableEq, Inhabited

/-- types.rs `OpsToml`, restricted to the fields deploy.rs reads
(deploy.rs uses `project` as a plain string). -/
structure OpsToml where
  project : String
  deploy_path : String
  deploy : DeployConfig
  apps : List AppDef
  env_files : List EnvFileMapping
  sync : List SyncMapping
  routes : List RouteDef
  healthchecks : List HealthCheck
deriving Repr, DecidableEq, Inhabited

/-- types.rs `BoundApp` (field read by deploy.rs resolution fallback). -/
structure BoundApp where
  project_name : String
deriving Repr, DecidableEq, Inhabited

/-- types.rs node record fields read by deploy.rs (`list_nodes` items). -/
structure NodeInfo where
  id : Int
  domain : String
  ip_address : String
  hostname : Option String
  region : Option String
  zone : Option String
  status : String
  bound_apps : Option (List BoundApp)
deriving Repr, DecidableEq, Inhabited

/-- types.rs `DeployTargetsResponse`. -/
structure DeployTargetsResponse where
  mode : String
  node_group_id : Option Int
  lb_strategy : Option String
  targets : List DeployTarget
deriving Repr, DecidableEq, Inhabited

/-- api.rs `sync_app` response fields used by deploy.rs. -/
structure SyncAppResult where
  app_id : Int
  created : Bool
deriving Repr, DecidableEq, Inhabited

/-- One external-effect event performed by the embedded code, in
program order.  Remote-session events carry the node id of the session
(`SshSession::connect` is always called with `node_id.to_string()`). -/
inductive Event where
  | connect (node : Int) : Event
  | exec (node : Int) (cmd : String) : Event
  | execOutput (node : Int) (cmd : String) : Event
  | rsyncPush (node : Int) (path : String) : Event
  | scpPush (local_path : String) (remote : String) : Event
  | apiGetAppDeployTargets (project : String) (app : String) : Event
  | apiListNodes : Event
  | apiBindNode (project : String) (app : String) (node : Int) : Event
  | apiSyncApp : Event
  | apiCreateDeployment (app_id : Int) : Event
  | apiUpdateDeployment (id : Int) (status : String) (logs : Option String) : Event
  | promptSelect (label : String) : Event
  | warn (msg : String) : Event
deriving Repr, DecidableEq

abbrev Trace := List Event

/-- Outcomes of every remote/local operation reachable from one deploy
run, independent of the control plane: remote command execution per
(session node, command), local file system, process environment, and
interactive prompt answers. -/
structure ExecWorld where
  connect : Int → Except String Unit
  exec : Int → String → Except String Unit
  execOutput : Int → String → Except String String
  rsyncPush : Int → Except String Unit
  scpPush : String → String → Except String Unit
  fileExists : String → Bool
  readFile : String → Except String String
  envVar : String → Option String
  tilde : String → String
  promptChoice : String → Nat

/-- Control-plane reads used by target resolution (config token load,
deploy-target query, node listing, binding). -/
structure ApiWorld where
  loadConfigOk : Bool
  token : Option String
  getAppDeployTargets : String → String → Except String DeployTargetsResponse
  listNodes : Except String (List NodeInfo)
  bindNodeByName : String → String → Int → Except String String

/-- Control-plane record operations used by deploy bookkeeping
(`sync_app_record` / `update_deployment_status`): these load the config
token themselves, separately from resolution. -/
structure CpWorld where
  loadConfigOk : Bool
  token : Option String
  syncApp : Except String SyncAppResult
  createDeployment : Int → Except String Int
  updateDeployment : Int → String → Except String Unit

/-- The full world of one `ops deploy` invocation.  `opsToml` is the
outcome of `load_ops_toml`; `schedule` picks the completion order of
parallel-mode tasks (any order is reachable, see `pickPerm`). -/
structure World where
  ssh : ExecWorld
  api : ApiWorld
  cp : CpWorld
  opsToml : Except String OpsToml
  schedule : List Nat

/-- prompt.rs `select`: non-interactive returns the default index;
interactive input is accepted only when it denotes a valid option,
otherwise the default index is returned. -/
def prompt_select (w : ExecWorld) (label : String) (options_len : Nat)
    (default_index : Nat) (interactive : Bool) : Nat :=
  if !interactive then default_index
  else if w.promptChoice label < options_len then w.promptChoice label
  else default_index

/-- deploy.rs `compose_file_args`. -/
def compose_file_args (config : OpsToml) : String :=
  match config.deploy.compose_files with
  | some files => String.intercalate " " (files.map (fun f => "-f " ++ f))
  | none => ""

/-- deploy.rs `env_prefix`: `"K=V K2=V2 "`, empty when no vars. -/
def envp (env_vars : List String) : String :=
  if env_vars.isEmpty then "" else String.intercalate " " env_vars ++ " "

/-- deploy.rs `resolve_services`. -/
def resolve_services (config : OpsToml) (app : Option String)
    (service : Option String) : String :=
  match service with
  | some svc => svc
  | none =>
    match app with
    | some app_name =>
      match config.apps.find? (fun a => a.name == app_name) with
      | some app_def => String.intercalate " " app_def.services
      | none => ""
    | none => ""

/-- deploy.rs `resolve_app_name`: first `[[apps]]` entry, else project. -/
def resolve_app_name (config : OpsToml) : String :=
  match config.apps.head? with
  | some a => a.name
  | none => config.project

/-- ASCII whitespace as relevant to the strings this model produces
(Rust `str::trim` handles Unicode whitespace; everything here is
ASCII). -/
def isWS (c : Char) : Bool :=
  c == ' ' || c == '\t' || c == '\n' || c == '\r'

/-- Rust `str::trim` (structurally computable). -/
def trimChars (s : String) : String :=
  String.mk (((s.data.dropWhile isWS).reverse.dropWhile isWS).reverse)

/-- Rust `str::replace` with a single-character pattern. -/
def replaceChar (s : String) (a b : Char) : String :=
  String.mk (s.data.map (fun c => if c == a then b else c))

/-- `l₁` is a prefix of `l₂`. -/
def isPrefixList : List Char → List Char → Bool
  | [], _ => true
  | _ :: _, [] => false
  | a :: as, b :: bs => a == b && isPrefixList as bs

/-- Does `pat` occur somewhere in `s`? -/
def containsAux (pat : List Char) : List Char → Bool
  | [] => isPrefixList pat []
  | a :: rest => isPrefixList pat (a :: rest) || containsAux pat rest

/-- Rust `str::contains` for a fixed pattern (used for the
`"No nodes bound"` dispatch in `handle_deploy`). -/
def containsSubstr (s pat : String) : Bool :=
  containsAux pat.data s.data

/-- Split at the first occurrence of `c`: `some (before, after)`. -/
def break_at (c : Char) : List Char → Option (List Char × List Char)
  | [] => none
  | a :: as =>
    if a == c then some ([], as)
    else
      match break_at c as with
      | some p => some (a :: p.1, p.2)
      | none => none

/-- Rust `splitn(2, c)`. -/
def splitn2 (s : String) (c : Char) : List String :=
  match break_at c s.data with
  | some p => [String.mk p.1, String.mk p.2]
  | none => [s]

/-- Split on every occurrence of `c` (Rust `split(c)`). -/
def splitChar (c : Char) : List Char → List (List Char)
  | [] => [[]]
  | a :: as =>
    match splitChar c as with
    | [] => [[]]
    | h :: t => if a == c then [] :: h :: t else (a :: h) :: t

/-- Number of lines of a trimmed string (Rust `str::lines().count()`
for a string with no trailing newline). -/
def linesCount (s : String) : Nat :=
  if s.isEmpty then 0 else (s.data.filter (fun c => c == '\n')).length + 1

/-- common.rs `resolve_env_value`: `$NAME` looks up the environment,
anything else is literal. -/
def resolve_env_value (w : ExecWorld) (val : String) : Except String String :=
  if val.data.headD ' ' == '$' then
    match w.envVar (String.mk (val.data.drop 1)) with
    | some v => Except.ok v
    | none => Except.error ("Environment variable " ++ val ++ " not set")
  else Except.ok val

/-- Rust `Path::file_name().to_str()`: last nonempty component of a
path (none for paths ending in a separator). -/
def path_file_name (p : String) : Option String :=
  match (splitChar '/' p.data).getLast? with
  | some last => if last.isEmpty then none else some (String.mk last)
  | none => none

/-- deploy.rs `setup_deploy_key`: upload the deploy key under
`~/.ssh/{project}/` and append a github host entry to ssh config. -/
def setup_deploy_key (w : ExecWorld) (node : Int) (local_key_path : String)
    (project_name : String) : Except String Unit × Trace :=
  match w.readFile local_key_path with
  | Except.error _ =>
    (Except.error ("Cannot read deploy key: " ++ local_key_path), [])
  | Except.ok _key_content =>
    match path_file_name local_key_path with
    | none => (Except.error "Invalid key path", [])
    | some key_filename =>
      let remote_key_dir := "~/.ssh/" ++ project_name
      let remote_key_path := remote_key_dir ++ "/" ++ key_filename
      let cmd1 := "mkdir -p " ++ remote_key_dir ++ " && cat > " ++ remote_key_path
        ++ " && chmod 600 " ++ remote_key_path
      match w.exec node cmd1 with
      | Except.error e => (Except.error e, [Event.exec node cmd1])
      | Except.ok _ =>
        let cmd2 := "grep -q \x27" ++ remote_key_path
          ++ "\x27 ~/.ssh/config 2>/dev/null || cat >> ~/.ssh/config << \x27SSHEOF\x27\n"
          ++ "Host github.com\n  Hostname ssh.github.com\n  Port 443\n  User git\n"
          ++ "  IdentityFile " ++ remote_key_path
          ++ "\n  IdentitiesOnly yes\n  StrictHostKeyChecking no\nSSHEOF\n"
          ++ "chmod 600 ~/.ssh/config"
        match w.exec node cmd2 with
        | Except.error e => (Except.error e, [Event.exec node cmd1, Event.exec node cmd2])
        | Except.ok _ => (Except.ok (), [Event.exec node cmd1, Event.exec node cmd2])

/-- deploy.rs `sync_code`: git pull/clone, rsync push, or image pull,
per `deploy.source`. -/
def sync_code (w : ExecWorld) (config : OpsToml) (node : Int)
    (app_filter service_filter : Option String) (env_vars : List String) :
    Except String Unit × Trace :=
  let deploy_path := config.deploy_path
  match config.deploy.source with
  | "git" =>
    match config.deploy.git with
    | none => (Except.error "deploy.source=\x27git\x27 requires [deploy.git] section", [])
    | some git =>
      let branch := config.deploy.branch.getD "main"
      let check := "test -d " ++ deploy_path
        ++ "/.git && echo \x27exists\x27 || echo \x27missing\x27"
      match w.execOutput node check with
      | Except.error e => (Except.error e, [Event.execOutput node check])
      | Except.ok output =>
        if trimChars output == "exists" then
          let cmd := "cd " ++ deploy_path ++ " && git pull origin " ++ branch
          (w.exec node cmd, [Event.execOutput node check, Event.exec node cmd])
        else
          let keyStep : Except String Unit × Trace :=
            match git.ssh_key with
            | some key_path =>
              setup_deploy_key w node (w.tilde key_path) (resolve_app_name config)
            | none => (Except.ok (), [])
          match keyStep.1 with
          | Except.error e => (Except.error e, Event.execOutput node check :: keyStep.2)
          | Except.ok _ =>
            let cmd := "GIT_SSH_COMMAND=\x27ssh -o StrictHostKeyChecking=no\x27 git clone -b "
              ++ branch ++ " " ++ git.repo ++ " " ++ deploy_path
            (w.exec node cmd,
              Event.execOutput node check :: keyStep.2 ++ [Event.exec node cmd])
  | "push" =>
    (w.rsyncPush node, [Event.rsyncPush node deploy_path])
  | "image" =>
    let loginStep : Except String Unit × Trace :=
      match config.deploy.registry with
      | some reg =>
        match resolve_env_value w reg.username with
        | Except.error e => (Except.error e, [])
        | Except.ok user =>
          match resolve_env_value w reg.token with
          | Except.error e => (Except.error e, [])
          | Except.ok token =>
            let cmd := "echo \x27" ++ token ++ "\x27 | docker login " ++ reg.url
              ++ " -u " ++ user ++ " --password-stdin"
            (w.exec node cmd, [Event.exec node cmd])
      | none => (Except.ok (), [])
    match loginStep.1 with
    | Except.error e => (Except.error e, loginStep.2)
    | Except.ok _ =>
      let compose := compose_file_args config
      let env := envp env_vars
      let svcs := resolve_services config app_filter service_filter
      let cmd := "cd " ++ deploy_path ++ " && " ++ env ++ "docker compose "
        ++ compose ++ " pull " ++ svcs
      (w.exec node cmd, loginStep.2 ++ [Event.exec node cmd])
  | other => (Except.error ("Unknown deploy source: " ++ other), [])

/-- deploy.rs `sync_env_files` inner loop over `[[env_files]]`. -/
def sync_env_files_go (w : ExecWorld) (deploy_path : String) (node : Int) :
    List EnvFileMapping → Except String Unit × Trace
  | [] => (Except.ok (), [])
  | ef :: rest =>
    if w.fileExists ef.local_path then
      match w.readFile ef.local_path with
      | Except.error e => (Except.error e, [])
      | Except.ok _content =>
        let remote_path := deploy_path ++ "/" ++ ef.remote
        let cmd := "cat > " ++ remote_path
        match w.exec node cmd with
        | Except.error e => (Except.error e, [Event.exec node cmd])
        | Except.ok _ =>
          let r := sync_env_files_go w deploy_path node rest
          (r.1, Event.exec node cmd :: r.2)
    else sync_env_files_go w deploy_path node rest

/-- deploy.rs `sync_env_files`: copy each existing declared env file. -/
def sync_env_files (w : ExecWorld) (config : OpsToml) (node : Int) :
    Except String Unit × Trace :=
  if config.env_files.isEmpty then (Except.ok (), [])
  else sync_env_files_go w config.deploy_path node config.env_files

/-- deploy.rs `sync_directories` inner loop over `[[sync]]`; the scp
remote is `{session.target()}:{deploy_path}/{remote}` and the session
target string is the node id `connect` was called with. -/
def sync_directories_go (w : ExecWorld) (deploy_path : String) (node : Int) :
    List SyncMapping → Except String Unit × Trace
  | [] => (Except.ok (), [])
  | s :: rest =>
    if w.fileExists s.local_path then
      let remote := toString node ++ ":" ++ deploy_path ++ "/" ++ s.remote
      match w.scpPush s.local_path remote with
      | Except.error e => (Except.error e, [Event.scpPush s.local_path remote])
      | Except.ok _ =>
        let r := sync_directories_go w deploy_path node rest
        (r.1, Event.scpPush s.local_path remote :: r.2)
    else sync_directories_go w deploy_path node rest

/-- deploy.rs `sync_directories`. -/
def sync_directories (w : ExecWorld) (config : OpsToml) (node : Int) :
    Except String Unit × Trace :=
  if config.sync.isEmpty then (Except.ok (), [])
  else sync_directories_go w config.deploy_path node config.sync

/-- deploy.rs `build_and_start`: restart only / image up / build+up. -/
def build_and_start (w : ExecWorld) (config : OpsToml) (node : Int)
    (service_filter app_filter : Option String) (restart_only : Bool)
    (env_vars : List String) : Except String Unit × Trace :=
  let deploy_path := config.deploy_path
  let compose := compose_file_args config
  let env := envp env_vars
  let svcs := resolve_services config app_filter service_filter
  let compose_arg := if compose.isEmpty then "" else " " ++ compose
  let svc_arg := if svcs.isEmpty then "" else " " ++ svcs
  if restart_only then
    let cmd := "cd " ++ deploy_path ++ " && " ++ env ++ "docker compose"
      ++ compose_arg ++ " restart" ++ svc_arg
    (w.exec node cmd, [Event.exec node cmd])
  else if config.deploy.source == "image" then
    let cmd := "cd " ++ deploy_path ++ " && " ++ env ++ "docker compose"
      ++ compose_arg ++ " up -d --remove-orphans" ++ svc_arg
    match w.exec node cmd with
    | Except.error e => (Except.error e, [Event.exec node cmd])
    | Except.ok _ =>
      -- `session.exec("docker image prune -f", None).ok()` — result dropped
      (Except.ok (), [Event.exec node cmd, Event.exec node "docker image prune -f"])
  else
    let cmd := "cd " ++ deploy_path ++ " && " ++ env ++ "docker compose"
      ++ compose_arg ++ " build" ++ svc_arg ++ " && " ++ env ++ "docker compose"
      ++ compose_arg ++ " up -d --remove-orphans" ++ svc_arg
    (w.exec node cmd, [Event.exec node cmd])

/-- Caddy route fragment written by deploy.rs for an X-OPS-Target
matcher (`{` and `}` escaped). -/
def caddy_target_snippet (target matcher : String) (port : Nat) : String :=
  "# " ++ target ++ "\n@" ++ matcher ++ " header X-OPS-Target " ++ target
    ++ "\nhandle @" ++ matcher ++ " \x7b\n    reverse_proxy 127.0.0.1:"
    ++ toString port ++ "\n\x7d\n"

/-- Caddy route fragment for a domain-based X-Forwarded-Host matcher. -/
def caddy_domain_snippet (domain matcher : String) (port : Nat) : String :=
  "# " ++ domain ++ "\n@" ++ matcher ++ " header X-Forwarded-Host " ++ domain
    ++ "\nhandle @" ++ matcher ++ " \x7b\n    reverse_proxy 127.0.0.1:"
    ++ toString port ++ "\n\x7d\n"

/-- deploy.rs `upload_caddy_routes` loop writing one fragment per
legacy route (different-ports case). -/
def upload_route_frags (w : ExecWorld) (node : Int) :
    List RouteDef → Except String Unit × Trace
  | [] => (Except.ok (), [])
  | route :: rest =>
    let safe_domain := replaceChar (replaceChar route.domain '.' '_') '-' '_'
    let matcher_name := "ops_route_" ++ safe_domain
    let conf_name := "ops-route-" ++ safe_domain ++ ".caddy"
    let cmd := "cat > /etc/caddy/routes.d/" ++ conf_name
    let _snippet := caddy_domain_snippet route.domain matcher_name route.port
    match w.exec node cmd with
    | Except.error e => (Except.error e, [Event.exec node cmd])
    | Except.ok _ =>
      let r := upload_route_frags w node rest
      (r.1, Event.exec node cmd :: r.2)

/-- deploy.rs `upload_caddy_routes` loop writing one fragment per
`[[apps]]` entry that declares a port. -/
def upload_app_frags (w : ExecWorld) (node : Int) (project_name : String) :
    List AppDef → Except String Unit × Trace
  | [] => (Except.ok (), [])
  | app :: rest =>
    let port := app.port.getD 0
    let target := app.name ++ "." ++ project_name
    let matcher_name := replaceChar ("ops_" ++ app.name ++ "_" ++ project_name) '-' '_'
    let conf_name := "ops-" ++ app.name ++ "-" ++ project_name ++ ".caddy"
    let cmd := "cat > /etc/caddy/routes.d/" ++ conf_name
    let _snippet := caddy_target_snippet target matcher_name port
    match w.exec node cmd with
    | Except.error e => (Except.error e, [Event.exec node cmd])
    | Except.ok _ =>
      let r := upload_app_frags w node project_name rest
      (r.1, Event.exec node cmd :: r.2)

/-- deploy.rs `upload_caddy_routes`: the `[[apps]]` entries that pass
the app filter and declare a port. -/
def apps_with_port (config : OpsToml) (app_filter : Option String) :
    List AppDef :=
  let apps_to_process : List AppDef :=
    match app_filter with
    | some filter => config.apps.filter (fun a => a.name == filter)
    | none => config.apps
  apps_to_process.filter (fun a => a.port.isSome)

/-- deploy.rs `upload_caddy_routes`, legacy `[[routes]]` section: one
shared-port fragment or one fragment per domain. -/
def upload_caddy_legacy (w : ExecWorld) (config : OpsToml) (node : Int)
    (app_filter : Option String) : Except String Unit × Trace :=
  if config.routes.isEmpty then (Except.ok (), [])
  else
    let project_name := config.project
    let deployed_app := app_filter.getD (resolve_app_name config)
    let first_port := (config.routes.headD default).port
    let all_same_port := config.routes.all (fun r => r.port == first_port)
    if all_same_port then
      let target := deployed_app ++ "." ++ project_name
      let matcher_name :=
        replaceChar ("ops_" ++ deployed_app ++ "_" ++ project_name) '-' '_'
      let conf_name := "ops-" ++ deployed_app ++ "-" ++ project_name ++ ".caddy"
      let cmd := "cat > /etc/caddy/routes.d/" ++ conf_name
      let _snippet := caddy_target_snippet target matcher_name first_port
      (w.exec node cmd, [Event.exec node cmd])
    else upload_route_frags w node config.routes

/-- deploy.rs `upload_caddy_routes`: ensure the fragment directory,
write legacy `[[routes]]` fragments (shared-port or per-domain),
write `[[apps]]`-with-port fragments, then validate and reload Caddy
if anything was written. -/
def upload_caddy_routes (w : ExecWorld) (config : OpsToml) (node : Int)
    (app_filter : Option String) : Except String Unit × Trace :=
  let project_name := config.project
  let mkdir_cmd := "mkdir -p /etc/caddy/routes.d"
  match w.exec node mkdir_cmd with
  | Except.error e => (Except.error e, [Event.exec node mkdir_cmd])
  | Except.ok _ =>
    let legacy := upload_caddy_legacy w config node app_filter
    match legacy.1 with
    | Except.error e => (Except.error e, Event.exec node mkdir_cmd :: legacy.2)
    | Except.ok _ =>
      let routes_written₁ := !config.routes.isEmpty
      let awp := apps_with_port config app_filter
      let appsStep : Except String Unit × Trace :=
        if awp.isEmpty then (Except.ok (), [])
        else upload_app_frags w node project_name awp
      match appsStep.1 with
      | Except.error e =>
        (Except.error e, Event.exec node mkdir_cmd :: legacy.2 ++ appsStep.2)
      | Except.ok _ =>
        let routes_written := routes_written₁ || !awp.isEmpty
        if routes_written then
          let reload_cmd :=
            "caddy validate --config /etc/caddy/Caddyfile && systemctl reload caddy"
          (w.exec node reload_cmd,
            Event.exec node mkdir_cmd :: legacy.2 ++ appsStep.2
              ++ [Event.exec node reload_cmd])
        else
          (Except.ok (), Event.exec node mkdir_cmd :: legacy.2 ++ appsStep.2)

/-- The fixed remote listing command of deploy.rs `check_containers`
(`docker ps -a --format ...`). -/
def ps_cmd : String :=
  "docker ps -a --format \x27table \x7b\x7b.Names\x7d\x7d\t\x7b\x7b.Status\x7d\x7d\t\x7b\x7b.Image\x7d\x7d\x27 2>/dev/null"

/-- deploy.rs `check_containers`: list services to deploy, enumerate
existing remote containers, then continue / clean-then-continue /
abort — automatically cleaning under `--force`, defaulting to
"continue" when not interactive. -/
def check_containers (w : ExecWorld) (node : Int) (config : OpsToml)
    (env_vars : List String) (force interactive : Bool) :
    Except String Unit × Trace :=
  let deploy_path := config.deploy_path
  let compose := compose_file_args config
  let env := envp env_vars
  let compose_arg := if compose.isEmpty then "" else " " ++ compose
  let services_cmd := "cd " ++ deploy_path ++ " && " ++ env ++ "docker compose"
    ++ compose_arg ++ " config --services 2>/dev/null"
  -- `exec_output(..).unwrap_or_default()`: errors collapse to empty output
  let _services_out := (w.execOutput node services_cmd).toOption.getD ""
  let ps_out := (w.execOutput node ps_cmd).toOption.getD ""
  let ps_str := trimChars ps_out
  let pre : Trace := [Event.execOutput node services_cmd, Event.execOutput node ps_cmd]
  if ps_str.isEmpty || linesCount ps_str ≤ 1 then
    (Except.ok (), pre)
  else
    let down_cmd := "cd " ++ deploy_path ++ " && " ++ env ++ "docker compose"
      ++ compose_arg ++ " down --remove-orphans 2>/dev/null; true"
    if force then
      match w.exec node down_cmd with
      | Except.error e => (Except.error e, pre ++ [Event.exec node down_cmd])
      | Except.ok _ => (Except.ok (), pre ++ [Event.exec node down_cmd])
    else
      let choice := prompt_select w "Select action" 3 0 interactive
      let pre2 := pre ++ [Event.promptSelect "Select action"]
      match choice with
      | 1 =>
        match w.exec node down_cmd with
        | Except.error e => (Except.error e, pre2 ++ [Event.exec node down_cmd])
        | Except.ok _ => (Except.ok (), pre2 ++ [Event.exec node down_cmd])
      | 2 => (Except.error "Deployment aborted by user", pre2)
      | _ => (Except.ok (), pre2)

/-- deploy.rs `run_health_checks` loop: poll each declared check and
report, never failing. -/
def run_health_checks_go (w : ExecWorld) (node : Int) :
    List HealthCheck → Trace
  | [] => []
  | hc :: rest =>
    let cmd := "for i in 1 2 3 4 5 6 7 8 9 10; do curl -sf " ++ hc.url
      ++ " > /dev/null && echo \x27OK\x27 && exit 0; sleep 2; done; echo \x27FAIL\x27; exit 1"
    let ev := Event.execOutput node cmd
    match w.execOutput node cmd with
    | Except.ok o =>
      if trimChars o == "OK" then ev :: run_health_checks_go w node rest
      else ev :: Event.warn ("✘ " ++ hc.name ++ "  " ++ hc.url ++ "  FAILED")
        :: run_health_checks_go w node rest
    | Except.error _ =>
      ev :: Event.warn ("✘ " ++ hc.name ++ "  " ++ hc.url ++ "  FAILED")
        :: run_health_checks_go w node rest

/-- deploy.rs `run_health_checks`: always returns `Ok(())`; per-check
failures are only reported. -/
def run_health_checks (w : ExecWorld) (config : OpsToml) (node : Int) :
    Except String Unit × Trace :=
  if config.healthchecks.isEmpty then (Except.ok (), [])
  else (Except.ok (), run_health_checks_go w node config.healthchecks)

/-- deploy.rs `execute_deployment`: the per-target pipeline body —
env-file sync, directory sync, code sync / image pull (skipped when
restart-only), build & start, Caddy routes (skipped when restart-only),
then health checks. -/
def execute_deployment (w : ExecWorld) (config : OpsToml) (node : Int)
    (service_filter app_filter : Option String) (restart_only : Bool)
    (env_vars : List String) : Except String Unit × Trace :=
  let s1 := sync_env_files w config node
  match s1.1 with
  | Except.error e => (Except.error e, s1.2)
  | Except.ok _ =>
    let s2 := sync_directories w config node
    match s2.1 with
    | Except.error e => (Except.error e, s1.2 ++ s2.2)
    | Except.ok _ =>
      let s3 : Except String Unit × Trace :=
        if restart_only then (Except.ok (), [])
        else sync_code w config node app_filter service_filter env_vars
      match s3.1 with
      | Except.error e => (Except.error e, s1.2 ++ s2.2 ++ s3.2)
      | Except.ok _ =>
        let s4 := build_and_start w config node service_filter app_filter
          restart_only env_vars
        match s4.1 with
        | Except.error e => (Except.error e, s1.2 ++ s2.2 ++ s3.2 ++ s4.2)
        | Except.ok _ =>
          let s5 : Except String Unit × Trace :=
            if restart_only then (Except.ok (), [])
            else upload_caddy_routes w config node app_filter
          match s5.1 with
          | Except.error e => (Except.error e, s1.2 ++ s2.2 ++ s3.2 ++ s4.2 ++ s5.2)
          | Except.ok _ =>
            let s6 := run_health_checks w config node
            match s6.1 with
            | Except.error e =>
              (Except.error e, s1.2 ++ s2.2 ++ s3.2 ++ s4.2 ++ s5.2 ++ s6.2)
            | Except.ok _ =>
              (Except.ok (), s1.2 ++ s2.2 ++ s3.2 ++ s4.2 ++ s5.2 ++ s6.2)

/-- deploy.rs `sync_app_record`: best-effort app sync + deployment
record creation; every failure is reported as a warning and converted
into `none` components, never raised. -/
def sync_app_record (cp : CpWorld) (_config : OpsToml) :
    (Option Int × Option Int) × Trace :=
  if !cp.loadConfigOk then
    ((none, none), [Event.warn "⚠ App record sync skipped (not logged in, skipping)"])
  else
    match cp.token with
    | none =>
      ((none, none), [Event.warn "⚠ App record sync skipped (not logged in, skipping)"])
    | some _token =>
      match cp.syncApp with
      | Except.error e =>
        ((none, none), [Event.apiSyncApp, Event.warn ("⚠ Sync failed: " ++ e)])
      | Except.ok sync_result =>
        match cp.createDeployment sync_result.app_id with
        | Except.error e =>
          ((some sync_result.app_id, none),
            [Event.apiSyncApp, Event.apiCreateDeployment sync_result.app_id,
             Event.warn ("⚠ Deployment record failed: " ++ e)])
        | Except.ok deployment_id =>
          ((some sync_result.app_id, some deployment_id),
            [Event.apiSyncApp, Event.apiCreateDeployment sync_result.app_id])

/-- deploy.rs `update_deployment_status`: maps `Ok` to `"success"` and
`Err` to `"failed"` (with the error text as logs), sends one update,
and swallows an API failure into a warning. -/
def update_deployment_status (cp : CpWorld) (deployment_id : Int)
    (result : Except String Unit) : Trace :=
  let token : Option String := if cp.loadConfigOk then cp.token else none
  match token with
  | none => []
  | some _ =>
    let status := match result with
      | Except.ok _ => "success"
      | Except.error _ => "failed"
    let logs : Option String := match result with
      | Except.ok _ => none
      | Except.error e => some e
    match cp.updateDeployment deployment_id status with
    | Except.error e =>
      [Event.apiUpdateDeployment deployment_id status logs,
       Event.warn ("⚠ Failed to update deployment status: " ++ e)]
    | Except.ok _ => [Event.apiUpdateDeployment deployment_id status logs]

/-- deploy.rs `print_deploy_summary`: after a multi-target run, print
the aggregate line and perform the single end-of-run status update
when a deployment record exists.  NOTE (faithful to the source): the
`_status` aggregate (`success`/`partial`/`failed`) is computed but
discarded; the update actually sent derives from an `Ok`/`Err` value,
so a partial outcome is reported as `"failed"`. -/
def print_deploy_summary (cp : CpWorld) (_app_name : String)
    (success_count : Nat) (failed : List String)
    (deployment_id : Option Int) : Trace :=
  let _total := success_count + failed.length
  let _status := if failed.isEmpty then "success"
    else if success_count > 0 then "partial" else "failed"
  match deployment_id with
  | some did =>
    let result : Except String Unit :=
      if failed.isEmpty then Except.ok ()
      else Except.error (toString failed.length ++ " node(s) failed")
    update_deployment_status cp did result
  | none => []

/-- deploy.rs `resolve_targets`: app-filter query, first-app/project
query, then the bound-nodes fallback with first-is-primary marking. -/
def resolve_targets (api : ApiWorld) (config : OpsToml)
    (app_filter : Option String) :
    Except String (List DeployTarget) × Trace :=
  let project := config.project
  if !api.loadConfigOk then (Except.error "Config error", [])
  else
    match api.token with
    | none => (Except.error "Please run `ops login` first.", [])
    | some _token =>
      match app_filter with
      | some app_name =>
        let ev := Event.apiGetAppDeployTargets project app_name
        match api.getAppDeployTargets project app_name with
        | Except.error _ =>
          (Except.error ("Failed to get deploy targets for \x27" ++ app_name
            ++ "\x27 in project \x27" ++ project ++ "\x27"), [ev])
        | Except.ok resp =>
          if resp.targets.isEmpty then
            (Except.error ("No nodes bound to app \x27" ++ app_name
              ++ "\x27 in project \x27" ++ project ++ "\x27"), [ev])
          else (Except.ok resp.targets, [ev])
      | none =>
        let app_name := resolve_app_name config
        let ev := Event.apiGetAppDeployTargets project app_name
        let viaApp : Option (List DeployTarget) :=
          match api.getAppDeployTargets project app_name with
          | Except.ok resp => if resp.targets.isEmpty then none else some resp.targets
          | Except.error _ => none
        match viaApp with
        | some targets => (Except.ok targets, [ev])
        | none =>
          match api.listNodes with
          | Except.error e => (Except.error e, [ev, Event.apiListNodes])
          | Except.ok nodes =>
            let bound := nodes.filter (fun n =>
              match n.bound_apps with
              | some apps => apps.any (fun a => a.project_name == project)
              | none => false)
            let targets := bound.enum.map (fun p =>
              ({ node_id := p.2.id, domain := p.2.domain,
                 ip_address := p.2.ip_address, hostname := p.2.hostname,
                 region := p.2.region, zone := p.2.zone, weight := 100,
                 is_primary := p.1 == 0, status := p.2.status } : DeployTarget))
            if targets.isEmpty then
              (Except.error ("No nodes bound to project \x27" ++ project
                ++ "\x27. Bind a node first with `ops set <app.project> --node <id>`."),
                [ev, Event.apiListNodes])
            else (Except.ok targets, [ev, Event.apiListNodes])

/-- deploy.rs `auto_allocate_node`: non-interactive mode fails; else
list nodes, let the operator pick one, bind it as primary and return
that single target. -/
def auto_allocate_node (api : ApiWorld) (w : ExecWorld) (config : OpsToml)
    (app_filter : Option String) (interactive : Bool) :
    Except String (List DeployTarget) × Trace :=
  if !interactive then
    (Except.error
      "No nodes bound. Use `ops set <app.project> --node <id>` to bind a node first.", [])
  else if !api.loadConfigOk then (Except.error "Config error", [])
  else
    match api.token with
    | none => (Except.error "Please run `ops login` first.", [])
    | some _token =>
      match api.listNodes with
      | Except.error e => (Except.error e, [Event.apiListNodes])
      | Except.ok nodes =>
        if nodes.isEmpty then
          (Except.error "No nodes available. Initialize one with `ops init` first.",
            [Event.apiListNodes])
        else
          let choice := prompt_select w "Select node" nodes.length 0 interactive
          let selected := nodes.getD choice default
          let project := config.project
          let app_name := app_filter.getD (resolve_app_name config)
          let pre := [Event.apiListNodes, Event.promptSelect "Select node",
            Event.apiBindNode project app_name selected.id]
          match api.bindNodeByName project app_name selected.id with
          | Except.error e => (Except.error e, pre)
          | Except.ok _msg =>
            (Except.ok [({ node_id := selected.id, domain := selected.domain,
                           ip_address := selected.ip_address,
                           hostname := selected.hostname,
                           region := selected.region, zone := selected.zone,
                           weight := 100, is_primary := true,
                           status := selected.status } : DeployTarget)], pre)

/-- The resolution phase of deploy.rs `handle_deploy`: `resolve_targets`
with the `"No nodes bound"` auto-allocation fallback. -/
def resolve_phase (api : ApiWorld) (w : ExecWorld) (config : OpsToml)
    (app_filter : Option String) (interactive : Bool) :
    Except String (List DeployTarget) × Trace :=
  let r := resolve_targets api config app_filter
  match r.1 with
  | Except.ok t => (Except.ok t, r.2)
  | Except.error e =>
    if containsSubstr e "No nodes bound" then
      let a := auto_allocate_node api w config app_filter interactive
      (a.1, r.2 ++ a.2)
    else (Except.error e, r.2)

/-- deploy.rs `handle_deploy` node-id filter: exact match, explicit
error when the result is empty. -/
def filter_node (node_filter : Option Int) (targets : List DeployTarget) :
    Except String (List DeployTarget) :=
  match node_filter with
  | none => Except.ok targets
  | some nid =>
    let r := targets.filter (fun t => t.node_id == nid)
    if r.isEmpty then
      Except.error ("Node " ++ toString nid ++ " is not bound to this app")
    else Except.ok r

/-- deploy.rs `handle_deploy` region filter: exact match, explicit
error when the result is empty. -/
def filter_region (region_filter : Option String) (targets : List DeployTarget) :
    Except String (List DeployTarget) :=
  match region_filter with
  | none => Except.ok targets
  | some region =>
    let r := targets.filter (fun t => t.region == some region)
    if r.isEmpty then
      Except.error ("No nodes in region \x27" ++ region ++ "\x27 bound to this app")
    else Except.ok r

/-- Both `handle_deploy` target filters, applied in source order. -/
def apply_filters (node_filter : Option Int) (region_filter : Option String)
    (targets : List DeployTarget) : Except String (List DeployTarget) :=
  match filter_node node_filter targets with
  | Except.error e => Except.error e
  | Except.ok t1 => filter_region region_filter t1

/-- deploy.rs `handle_deploy` rolling branch loop body: per target in
resolved order, open a session, create the deploy path, run the
pipeline; any failure is recorded and the loop continues.  Returns
`(success_count, failed domains, trace)`. -/
def rolling_go (w : ExecWorld) (config : OpsToml)
    (service_filter app_filter : Option String) (restart_only : Bool)
    (env_vars : List String) :
    List DeployTarget → Nat × List String × Trace
  | [] => (0, [], [])
  | t :: rest =>
    let node := t.node_id
    let mk := "mkdir -p " ++ config.deploy_path
    let r := rolling_go w config service_filter app_filter restart_only env_vars rest
    match w.connect node with
    | Except.error _e =>
      (r.1, t.domain :: r.2.1, Event.connect node :: r.2.2)
    | Except.ok _ =>
      match w.exec node mk with
      | Except.error _e =>
        (r.1, t.domain :: r.2.1, Event.connect node :: Event.exec node mk :: r.2.2)
      | Except.ok _ =>
        let d := execute_deployment w config node service_filter app_filter
          restart_only env_vars
        match d.1 with
        | Except.ok _ =>
          (r.1 + 1, r.2.1,
            Event.connect node :: Event.exec node mk :: d.2 ++ r.2.2)
        | Except.error _e =>
          (r.1, t.domain :: r.2.1,
            Event.connect node :: Event.exec node mk :: d.2 ++ r.2.2)

/-- deploy.rs `handle_deploy` parallel branch: the closure spawned per
target — open a session, create the deploy path, run the pipeline —
returning `(domain, region, result)` exactly as the source task does,
together with the events of that task. -/
def parallel_task (w : ExecWorld) (config : OpsToml)
    (service_filter app_filter : Option String) (restart_only : Bool)
    (env_vars : List String) (t : DeployTarget) :
    (String × Option String × Except String Unit) × Trace :=
  let node := t.node_id
  let mk := "mkdir -p " ++ config.deploy_path
  match w.connect node with
  | Except.error e => ((t.domain, t.region, Except.error e), [Event.connect node])
  | Except.ok _ =>
    match w.exec node mk with
    | Except.error e =>
      ((t.domain, t.region, Except.error e),
        [Event.connect node, Event.exec node mk])
    | Except.ok _ =>
      let d := execute_deployment w config node service_filter app_filter
        restart_only env_vars
      ((t.domain, t.region, d.1),
        Event.connect node :: Event.exec node mk :: d.2)

/-- Completion-order model for `JoinSet::join_next`: a schedule of
indices repeatedly picks the next finished task among those remaining,
so every permutation of the spawned tasks is reachable and nothing
else is. -/
def pickPerm (s : List Nat) (l : List α) : List α :=
  match s, l with
  | _, [] => []
  | [], l => l
  | i :: s, x :: xs =>
    let j := i % (x :: xs).length
    (x :: xs).getD j x :: pickPerm s ((x :: xs).eraseIdx j)
termination_by l.length
decreasing_by
  have h : i % (xs.length + 1) < xs.length + 1 := Nat.mod_lt _ (Nat.succ_pos _)
  simp only [List.length_eraseIdx, List.length_cons, h, if_true]
  omega

/-- deploy.rs `handle_deploy` parallel join loop: count successes and
collect failed domains over the completed tasks. -/
def parallel_join :
    List ((String × Option String × Except String Unit) × Trace) →
    Nat × List String
  | [] => (0, [])
  | task :: rest =>
    let r := parallel_join rest
    match task.1.2.2 with
    | Except.ok _ => (r.1 + 1, r.2)
    | Except.error _ => (r.1, task.1.1 :: r.2)

/-- deploy.rs `handle_deploy` after resolution and filtering: connect
to the first target, create the deploy path, run the pre-flight
container check (unless restart-only), sync the app record, then
deploy single-target / rolling / parallel and finish with the summary
and aggregated result. -/
def handle_deploy_on_targets (ssh : ExecWorld) (cp : CpWorld)
    (schedule : List Nat) (config : OpsToml) (app_name : String)
    (service_filter app_filter : Option String) (restart_only : Bool)
    (env_vars : List String) (rolling force interactive : Bool)
    (targets : List DeployTarget) : Except String Unit × Trace :=
  let t0 := targets.headD default
  let node0 := t0.node_id
  let mk := "mkdir -p " ++ config.deploy_path
  match ssh.connect node0 with
  | Except.error e => (Except.error e, [Event.connect node0])
  | Except.ok _ =>
    match ssh.exec node0 mk with
    | Except.error e => (Except.error e, [Event.connect node0, Event.exec node0 mk])
    | Except.ok _ =>
      let chk : Except String Unit × Trace :=
        if restart_only then (Except.ok (), [])
        else check_containers ssh node0 config env_vars force interactive
      let pre : Trace := Event.connect node0 :: Event.exec node0 mk :: chk.2
      match chk.1 with
      | Except.error e => (Except.error e, pre)
      | Except.ok _ =>
        let sync := sync_app_record cp config
        let deployment_id := sync.1.2
        let pre2 := pre ++ sync.2
        if targets.length == 1 then
          let d := execute_deployment ssh config node0 service_filter app_filter
            restart_only env_vars
          let tru : Trace :=
            match deployment_id with
            | some did => update_deployment_status cp did d.1
            | none => []
          (d.1, pre2 ++ d.2 ++ tru)
        else if rolling then
          let r := rolling_go ssh config service_filter app_filter restart_only
            env_vars targets
          let trs := print_deploy_summary cp app_name r.1 r.2.1 deployment_id
          let res : Except String Unit :=
            if r.2.1.isEmpty then Except.ok ()
            else Except.error (toString r.2.1.length ++ " node(s) failed deployment")
          (res, pre2 ++ r.2.2 ++ trs)
        else
          let tasks := targets.map
            (parallel_task ssh config service_filter app_filter restart_only env_vars)
          let joined := pickPerm schedule tasks
          let agg := parallel_join joined
          let trp := (joined.map Prod.snd).flatten
          let trs := print_deploy_summary cp app_name agg.1 agg.2 deployment_id
          let res : Except String Unit :=
            if agg.2.isEmpty then Except.ok ()
            else Except.error (toString agg.2.length ++ " node(s) failed deployment")
          (res, pre2 ++ trp ++ trs)

/-- deploy.rs `handle_deploy`: parse ops.toml, resolve and filter the
targets, then hand off to the target-deployment phase. -/
def handle_deploy (w : World) (service_filter app_filter : Option String)
    (restart_only : Bool) (env_vars : List String) (node_filter : Option Int)
    (region_filter : Option String) (rolling force interactive : Bool) :
    Except String Unit × Trace :=
  match w.opsToml with
  | Except.error e => (Except.error e, [])
  | Except.ok config =>
    let app_name := resolve_app_name config
    let rp := resolve_phase w.api w.ssh config app_filter interactive
    match rp.1 with
    | Except.error e => (Except.error e, rp.2)
    | Except.ok targets0 =>
      match apply_filters node_filter region_filter targets0 with
      | Except.error e => (Except.error e, rp.2)
      | Except.ok targets =>
        let r := handle_deploy_on_targets w.ssh w.cp w.schedule config app_name
          service_filter app_filter restart_only env_vars rolling force
          interactive targets
        (r.1, rp.2 ++ r.2)

/-- main.rs tail: any command error prints and exits 1, success exits 0. -/
def exit_code (result : Except String Unit) : Nat :=
  match result with
  | Except.ok _ => 0
  | Except.error _ => 1

/-- pool.rs `parse_target`: `"app.project"` → `(project, app)`. -/
def parse_target (target : String) : Except String (String × String) :=
  let parts := splitn2 target '.'
  if parts.length != 2 then
    Except.error "Target must be in \x27app.project\x27 format (e.g., api.RedQ)"
  else Except.ok (parts.getD 1 "", parts.getD 0 "")

/-- One row of the `pool status` member table. -/
structure PoolRow where
  node_id : Int
  status : String
  is_primary : Bool
deriving Repr, DecidableEq

/-- pool.rs `handle_status` row rendering input for one target. -/
def pool_row (t : DeployTarget) : PoolRow :=
  { node_id := t.node_id, status := t.status, is_primary := t.is_primary }

/-- pool.rs `handle_status`: load token, parse the `app.project`
target, fetch the deploy targets, list every member with its status,
and summarise `healthy/total`; `none` payload when no nodes are bound
(early return, no summary). -/
def handle_status (api : ApiWorld) (target : String) :
    Except String (Option (List PoolRow × Nat × Nat)) × Trace :=
  if !api.loadConfigOk then (Except.error "Config error", [])
  else
    match api.token with
    | none => (Except.error "Please run `ops login` first.", [])
    | some _token =>
      match parse_target target with
      | Except.error e => (Except.error e, [])
      | Except.ok pa =>
        let ev := Event.apiGetAppDeployTargets pa.1 pa.2
        match api.getAppDeployTargets pa.1 pa.2 with
        | Except.error e => (Except.error e, [ev])
        | Except.ok resp =>
          if resp.targets.isEmpty then (Except.ok none, [ev])
          else
            let rows := resp.targets.map pool_row
            let healthy :=
              (resp.targets.filter (fun t => t.status == "healthy")).length
            let total := resp.targets.length
            (Except.ok (some (rows, healthy, total)), [ev])

/-! ### Event classifiers -/

/-- A remote-session-open event. -/
def isConnect : Event → Bool
  | Event.connect _ => true
  | _ => false

/-- Any event that touches a remote machine (session open, command,
captured command, rsync, scp). -/
def isRemote : Event → Bool
  | Event.connect _ => true
  | Event.exec _ _ => true
  | Event.execOutput _ _ => true
  | Event.rsyncPush _ _ => true
  | Event.scpPush _ _ => true
  | _ => false

/-- The container-enumeration command of the pre-flight check. -/
def isPs : Event → Bool
  | Event.execOutput _ cmd => cmd == ps_cmd
  | _ => false

/-- A deployment-record status update sent to the control plane. -/
def isUpdate : Event → Bool
  | Event.apiUpdateDeployment _ _ _ => true
  | _ => false

/-! ### Basic pipeline lemmas -/

/-- deploy.rs `run_health_checks` returns `Ok(())` on every world:
per-check failures are reported but never returned. -/
lemma run_health_checks_ok (w : ExecWorld) (config : OpsToml) (node : Int) :
    (run_health_checks w config node).1 = Except.ok () := by
  simp only [run_health_checks]
  split <;> rfl

lemma countP_connect_run_health_checks_go (w : ExecWorld) (node : Int)
    (l : List HealthCheck) :
    (run_health_checks_go w node l).countP isConnect = 0 := by
  induction l with
  | nil => simp [run_health_checks_go]
  | cons hc rest ih =>
    simp only [run_health_checks_go]
    split <;> (try split) <;> simp [isConnect, List.countP_cons, ih]

lemma countP_connect_sync_env_files_go (w : ExecWorld) (dp : String) (node : Int)
    (l : List EnvFileMapping) :
    ((sync_env_files_go w dp node l).2).countP isConnect = 0 := by
  induction l with
  | nil => simp [sync_env_files_go]
  | cons ef rest ih =>
    simp only [sync_env_files_go]
    split
    · split
      · simp
      · split <;> simp [isConnect, List.countP_cons, ih]
    · exact ih

lemma countP_connect_sync_directories_go (w : ExecWorld) (dp : String) (node : Int)
    (l : List SyncMapping) :
    ((sync_directories_go w dp node l).2).countP isConnect = 0 := by
  induction l with
  | nil => simp [sync_directories_go]
  | cons s rest ih =>
    simp only [sync_directories_go]
    split
    · split <;> simp [isConnect, List.countP_cons, ih]
    · exact ih

lemma countP_connect_setup_deploy_key (w : ExecWorld) (node : Int)
    (p q : String) :
    ((setup_deploy_key w node p q).2).countP isConnect = 0 := by
  simp only [setup_deploy_key]
  split
  · simp
  · split
    · simp
    · split
      · simp [isConnect, List.countP_cons]
      · split <;> simp [isConnect, List.countP_cons]

lemma countP_connect_sync_code (w : ExecWorld) (config : OpsToml) (node : Int)
    (af sf : Option String) (ev : List String) :
    ((sync_code w config node af sf ev).2).countP isConnect = 0 := by
  simp only [sync_code]
  split
  · split
    · simp
    · next git hg =>
      split
      · simp [isConnect, List.countP_cons, -List.countP_eq_zero]
      · split
        · simp [isConnect, List.countP_cons, -List.countP_eq_zero]
        · cases hk : git.ssh_key with
          | none =>
            simp [hk, isConnect, List.countP_cons, -List.countP_eq_zero]
          | some key_path =>
            have hs := countP_connect_setup_deploy_key w node (w.tilde key_path)
              (resolve_app_name config)
            simp only [hk]
            split <;>
              simp [isConnect, List.countP_cons, List.countP_append, hs,
                -List.countP_eq_zero]
  · simp [isConnect, List.countP_cons, -List.countP_eq_zero]
  · split
    · split <;> (try split) <;> (try split) <;>
        simp [isConnect, List.countP_cons, -List.countP_eq_zero]
    · split <;> (try split) <;> (try split) <;>
        simp [isConnect, List.countP_cons, List.countP_append,
          -List.countP_eq_zero]
  · simp

lemma countP_connect_sync_env_files (w : ExecWorld) (config : OpsToml) (node : Int) :
    ((sync_env_files w config node).2).countP isConnect = 0 := by
  simp only [sync_env_files]
  split
  · simp
  · exact countP_connect_sync_env_files_go ..

lemma countP_connect_sync_directories (w : ExecWorld) (config : OpsToml) (node : Int) :
    ((sync_directories w config node).2).countP isConnect = 0 := by
  simp only [sync_directories]
  split
  · simp
  · exact countP_connect_sync_directories_go ..

lemma countP_connect_build_and_start (w : ExecWorld) (config : OpsToml) (node : Int)
    (sf af : Option String) (ro : Bool) (ev : List String) :
    ((build_and_start w config node sf af ro ev).2).countP isConnect = 0 := by
  simp only [build_and_start]
  split
  · simp [isConnect, List.countP_cons]
  · split
    · split <;> simp [isConnect, List.countP_cons]
    · simp [isConnect, List.countP_cons]

lemma countP_connect_upload_route_frags (w : ExecWorld) (node : Int)
    (l : List RouteDef) :
    ((upload_route_frags w node l).2).countP isConnect = 0 := by
  induction l with
  | nil => simp [upload_route_frags]
  | cons r rest ih =>
    simp only [upload_route_frags]
    split <;> simp [isConnect, List.countP_cons, ih]

lemma countP_connect_upload_app_frags (w : ExecWorld) (node : Int) (pn : String)
    (l : List AppDef) :
    ((upload_app_frags w node pn l).2).countP isConnect = 0 := by
  induction l with
  | nil => simp [upload_app_frags]
  | cons a rest ih =>
    simp only [upload_app_frags]
    split <;> simp [isConnect, List.countP_cons, ih]

lemma countP_connect_upload_caddy_legacy (w : ExecWorld) (config : OpsToml)
    (node : Int) (af : Option String) :
    ((upload_caddy_legacy w config node af).2).countP isConnect = 0 := by
  simp only [upload_caddy_legacy]
  split
  · simp
  · split
    · simp [isConnect, List.countP_cons, -List.countP_eq_zero]
    · exact countP_connect_upload_route_frags ..

lemma countP_connect_upload_caddy_routes (w : ExecWorld) (config : OpsToml)
    (node : Int) (af : Option String) :
    ((upload_caddy_routes w config node af).2).countP isConnect = 0 := by
  have hleg := countP_connect_upload_caddy_legacy w config node af
  have happ : ∀ l : List AppDef,
      ((if l.isEmpty then ((Except.ok () : Except String Unit), ([] : Trace))
        else upload_app_frags w node config.project l).2).countP isConnect = 0 := by
    intro l
    split
    · simp
    · exact countP_connect_upload_app_frags ..
  simp only [upload_caddy_routes]
  split
  · simp [isConnect, List.countP_cons, -List.countP_eq_zero]
  · split
    · simp only [List.countP_cons, hleg]
      simp [isConnect]
    · split
      · simp only [List.countP_cons, List.countP_append, hleg, happ]
        simp [isConnect]
      · split <;>
          (simp only [List.countP_cons, List.countP_append, hleg, happ]
           simp [isConnect])

lemma countP_connect_check_containers (w : ExecWorld) (node : Int)
    (config : OpsToml) (ev : List String) (force interactive : Bool) :
    ((check_containers w node config ev force interactive).2).countP isConnect = 0 := by
  simp only [check_containers]
  split
  · simp [isConnect, List.countP_cons]
  · split
    · split <;> simp [isConnect, List.countP_cons, List.countP_append]
    · split <;> (try split) <;>
        simp [isConnect, List.countP_cons, List.countP_append]

lemma countP_connect_execute_deployment (w : ExecWorld) (config : OpsToml)
    (node : Int) (sf af : Option String) (ro : Bool) (ev : List String) :
    ((execute_deployment w config node sf af ro ev).2).countP isConnect = 0 := by
  have c1 := countP_connect_sync_env_files w config node
  have c2 := countP_connect_sync_directories w config node
  have c4 := countP_connect_build_and_start w config node sf af ro ev
  have c6 : ((run_health_checks w config node).2).countP isConnect = 0 := by
    simp only [run_health_checks]
    split
    · simp
    · exact countP_connect_run_health_checks_go ..
  have c3i : ((if ro then ((Except.ok () : Except String Unit), ([] : Trace))
      else sync_code w config node af sf ev).2).countP isConnect = 0 := by
    split
    · simp
    · exact countP_connect_sync_code ..
  have c5i : ((if ro then ((Except.ok () : Except String Unit), ([] : Trace))
      else upload_caddy_routes w config node af).2).countP isConnect = 0 := by
    split
    · simp
    · exact countP_connect_upload_caddy_routes ..
  simp only [execute_deployment]
  split
  · exact c1
  · split
    · simp only [List.countP_append, c1, c2, Nat.add_zero]
    · split
      · simp only [List.countP_append, c1, c2, c3i, Nat.add_zero]
      · split
        · simp only [List.countP_append, c1, c2, c3i, c4, Nat.add_zero]
        · split
          · simp only [List.countP_append, c1, c2, c3i, c4, c5i, Nat.add_zero]
          · split <;>
              simp only [List.countP_append, c1, c2, c3i, c4, c5i, c6,
                Nat.add_zero]

/-! ### Coordinator lemmas -/

lemma filter_connect_execute_deployment (w : ExecWorld) (config : OpsToml)
    (node : Int) (sf af : Option String) (ro : Bool) (ev : List String) :
    ((execute_deployment w config node sf af ro ev).2).filter isConnect = [] :=
  List.filter_eq_nil_iff.mpr
    (List.countP_eq_zero.mp (countP_connect_execute_deployment w config node sf af ro ev))

lemma rolling_go_spec (w : ExecWorld) (config : OpsToml)
    (sf af : Option String) (ro : Bool) (ev : List String) :
    ∀ targets : List DeployTarget,
      (rolling_go w config sf af ro ev targets).1
          + (rolling_go w config sf af ro ev targets).2.1.length
        = targets.length
      ∧ ((rolling_go w config sf af ro ev targets).2.2).filter isConnect
        = targets.map (fun t => Event.connect t.node_id) := by
  intro targets
  induction targets with
  | nil => simp [rolling_go]
  | cons t rest ih =>
    obtain ⟨ih1, ih2⟩ := ih
    simp only [rolling_go]
    split
    · constructor
      · simp only [List.length_cons]
        omega
      · simp [List.filter_cons, isConnect, ih2]
    · split
      · constructor
        · simp only [List.length_cons]
          omega
        · simp [List.filter_cons, isConnect, ih2]
      · split
        · constructor
          · simp only [List.length_cons]
            omega
          · simp [List.filter_cons, List.filter_append, isConnect, ih2,
              filter_connect_execute_deployment]
        · constructor
          · simp only [List.length_cons]
            omega
          · simp [List.filter_cons, List.filter_append, isConnect, ih2,
              filter_connect_execute_deployment]

lemma cons_getD_eraseIdx_perm :
    ∀ (l : List α) (j : Nat) (x : α), j < l.length →
      List.Perm (l.getD j x :: l.eraseIdx j) l
  | a :: l, 0, x, _ => by simp
  | a :: l, j + 1, x, h => by
    simp only [List.getD_cons_succ, List.eraseIdx_cons_succ]
    have ih := cons_getD_eraseIdx_perm l j x (Nat.lt_of_succ_lt_succ h)
    exact (List.Perm.swap a (l.getD j x) _).trans (ih.cons a)

/-- Any completion order produced by a schedule is a permutation of the
spawned tasks. -/
lemma pickPerm_perm (s : List Nat) (l : List α) : List.Perm (pickPerm s l) l := by
  induction s generalizing l with
  | nil =>
    cases l with
    | nil => simp [pickPerm]
    | cons x xs => simp [pickPerm]
  | cons i s ih =>
    cases l with
    | nil => simp [pickPerm]
    | cons x xs =>
      simp only [pickPerm]
      have h : i % (x :: xs).length < (x :: xs).length :=
        Nat.mod_lt _ (Nat.succ_pos _)
      exact ((ih _).cons _).trans (cons_getD_eraseIdx_perm _ _ _ h)

lemma parallel_join_counts :
    ∀ l : List ((String × Option String × Except String Unit) × Trace),
      (parallel_join l).1 + (parallel_join l).2.length = l.length := by
  intro l
  induction l with
  | nil => simp [parallel_join]
  | cons task rest ih =>
    simp only [parallel_join]
    split <;> simp only [List.length_cons] <;> omega

/-- Per-target failure of one rolling-mode iteration, exactly as the
source records it: session-open failure, deploy-path creation failure,
or pipeline failure. -/
def rolling_target_failed (w : ExecWorld) (config : OpsToml)
    (sf af : Option String) (ro : Bool) (ev : List String)
    (t : DeployTarget) : Bool :=
  match w.connect t.node_id with
  | Except.error _ => true
  | Except.ok _ =>
    match w.exec t.node_id ("mkdir -p " ++ config.deploy_path) with
    | Except.error _ => true
    | Except.ok _ =>
      match (execute_deployment w config t.node_id sf af ro ev).1 with
      | Except.error _ => true
      | Except.ok _ => false

/-- C4.  For every rolling-mode deploy over the resolved target list,
the loop opens exactly one session per target, in resolved order (the
session-open events of the trace are precisely the targets in order);
the successes are exactly the non-failing targets and the recorded
failures are exactly the failing targets' domains in resolved order, so
a failure at target i never prevents the attempt at target i+1; and
`success_count + |failed| = N`. -/
theorem rolling_mode_attempts_every_target_in_order
    (w : ExecWorld) (config : OpsToml) (sf af : Option String) (ro : Bool)
    (ev : List String) (targets : List DeployTarget) :
    (rolling_go w config sf af ro ev targets).1
      = (targets.filter
          (fun t => !rolling_target_failed w config sf af ro ev t)).length
    ∧ (rolling_go w config sf af ro ev targets).2.1
      = (targets.filter (rolling_target_failed w config sf af ro ev)).map
          (fun t => t.domain)
    ∧ (rolling_go w config sf af ro ev targets).1
        + (rolling_go w config sf af ro ev targets).2.1.length
      = targets.length
    ∧ ((rolling_go w config sf af ro ev targets).2.2).filter isConnect
      = targets.map (fun t => Event.connect t.node_id) := by
  refine ⟨?_, ?_, (rolling_go_spec w config sf af ro ev targets).1,
    (rolling_go_spec w config sf af ro ev targets).2⟩ <;>
  · induction targets with
    | nil => simp [rolling_go]
    | cons t rest ih =>
      simp only [rolling_go]
      split
      · next he =>
        simp [List.filter_cons, rolling_target_failed, he, ih]
      · next he =>
        split
        · next he2 =>
          simp [List.filter_cons, rolling_target_failed, he, he2, ih]
        · next he2 =>
          split
          · next hd =>
            simp [List.filter_cons, rolling_target_failed, he, he2, hd, ih]
          · next hd =>
            simp [List.filter_cons, rolling_target_failed, he, he2, hd, ih]

/-- C5.  In parallel mode every spawned per-target task is joined (the
join order is some permutation of the spawned tasks), the aggregate
counts satisfy `success_count + |failed| = N` for every reachable join
order, and a task whose session fails to open yields a failure record
for exactly that target, independent of every other target. -/
theorem parallel_mode_attempts_all_targets
    (w : ExecWorld) (config : OpsToml) (sf af : Option String) (ro : Bool)
    (ev : List String) (targets : List DeployTarget) (schedule : List Nat) :
    List.Perm (pickPerm schedule
        (targets.map (parallel_task w config sf af ro ev)))
      (targets.map (parallel_task w config sf af ro ev))
    ∧ (parallel_join (pickPerm schedule
          (targets.map (parallel_task w config sf af ro ev)))).1
        + (parallel_join (pickPerm schedule
            (targets.map (parallel_task w config sf af ro ev)))).2.length
      = targets.length
    ∧ (∀ t ∈ targets, ∀ e, w.connect t.node_id = Except.error e →
        (parallel_task w config sf af ro ev t).1
          = (t.domain, t.region, Except.error e)) := by
  refine ⟨pickPerm_perm .., ?_, ?_⟩
  · have hlen := (pickPerm_perm schedule
      (targets.map (parallel_task w config sf af ro ev))).length_eq
    have hc := parallel_join_counts (pickPerm schedule
      (targets.map (parallel_task w config sf af ro ev)))
    simp only [hlen, List.length_map] at hc ⊢
    exact hc
  · intro t _ e he
    simp [parallel_task, he]

/-! ### Concrete demonstration worlds -/

/-- A three-node, push-source deployment configuration. -/
def demo_config : OpsToml :=
  { project := "redq", deploy_path := "/srv/app",
    deploy := { source := "push", branch := none, git := none,
                compose_files := none, registry := none },
    apps := [], env_files := [], sync := [], routes := [], healthchecks := [] }

/-- One resolved deploy target. -/
def demo_target (i : Int) (r : String) : DeployTarget :=
  { node_id := i, domain := "n" ++ toString i ++ ".example",
    ip_address := "10.0.0." ++ toString i, hostname := none, region := some r,
    zone := none, weight := 100, is_primary := i == 1, status := "healthy" }

/-- Three bound nodes; node 3 sits in another region. -/
def demo_targets : List DeployTarget :=
  [demo_target 1 "eu", demo_target 2 "eu", demo_target 3 "us-west"]

/-- Remote world where only node 2's code push fails. -/
def demo_ssh : ExecWorld :=
  { connect := fun _ => Except.ok (), exec := fun _ _ => Except.ok (),
    execOutput := fun _ _ => Except.ok "",
    rsyncPush := fun n => if n == 2 then Except.error "rsync failed" else Except.ok (),
    scpPush := fun _ _ => Except.ok (), fileExists := fun _ => false,
    readFile := fun _ => Except.error "no such file", envVar := fun _ => none,
    tilde := id, promptChoice := fun _ => 0 }

/-- Remote world where node 2's session cannot be opened. -/
def demo_ssh_connfail : ExecWorld :=
  { demo_ssh with
    connect := fun n => if n == 2 then Except.error "ssh unreachable" else Except.ok () }

/-- Control-plane resolution world binding the three demo nodes. -/
def demo_api : ApiWorld :=
  { loadConfigOk := true, token := some "tok",
    getAppDeployTargets := fun _ _ => Except.ok
      { mode := "pool", node_group_id := some 9,
        lb_strategy := some "round-robin", targets := demo_targets },
    listNodes := Except.ok [], bindNodeByName := fun _ _ _ => Except.error "unused" }

/-- Control-plane record world: deployment record 77 is created. -/
def demo_cp : CpWorld :=
  { loadConfigOk := true, token := some "tok",
    syncApp := Except.ok { app_id := 5, created := false },
    createDeployment := fun _ => Except.ok 77,
    updateDeployment := fun _ _ => Except.ok () }

/-- Full world of the demo rolling deploy. -/
def demo_world : World :=
  { ssh := demo_ssh, api := demo_api, cp := demo_cp,
    opsToml := Except.ok demo_config, schedule := [] }

/-- C1 (failing evaluation).  In the demo rolling deploy 2 of 3 targets
succeed, the deployment record exists, and exactly one status update is
sent — but its status is `"failed"`, not `"partial"`: the source
computes the `success`/`partial`/`failed` aggregate into the unused
`_status` binding of `print_deploy_summary` and then derives the sent
status from an `Ok`/`Err` value, which collapses `partial` to
`failed`. -/
theorem deploy_partial_outcome_reported_failed :
    ((handle_deploy demo_world none none false [] none none true false
        false).2).filter isUpdate
      = [Event.apiUpdateDeployment 77 "failed" (some "1 node(s) failed")]
    ∧ (rolling_go demo_ssh demo_config none none false [] demo_targets).1 = 2
    ∧ (rolling_go demo_ssh demo_config none none false []
        demo_targets).2.1.length = 1 := by
  refine ⟨?_, rfl, rfl⟩
  rfl

/-- C3.  For every single-target pipeline run the enabled steps are
executed in the fixed order env-file sync, directory sync, code sync /
image pull (skipped on restart-only), build-and-start, routing update
(skipped on restart-only), health checks: an error at the k-th of the
first five steps returns that error immediately, with the trace holding
only the events of steps 1..k; when steps 1–5 all succeed the pipeline
returns `Ok` and the health-check events still run; and the health-check
step itself never fails, so its per-check outcomes cannot change the
returned value. -/
theorem single_target_pipeline_order_and_isolation
    (w : ExecWorld) (config : OpsToml) (node : Int) (sf af : Option String)
    (ro : Bool) (ev : List String) :
    (run_health_checks w config node).1 = Except.ok ()
    ∧ (∀ e, (sync_env_files w config node).1 = Except.error e →
        execute_deployment w config node sf af ro ev =
          (Except.error e, (sync_env_files w config node).2))
    ∧ (∀ e, (sync_env_files w config node).1 = Except.ok () →
        (sync_directories w config node).1 = Except.error e →
        execute_deployment w config node sf af ro ev =
          (Except.error e,
            (sync_env_files w config node).2 ++ (sync_directories w config node).2))
    ∧ (∀ e, (sync_env_files w config node).1 = Except.ok () →
        (sync_directories w config node).1 = Except.ok () → ro = false →
        (sync_code w config node af sf ev).1 = Except.error e →
        execute_deployment w config node sf af ro ev =
          (Except.error e,
            (sync_env_files w config node).2 ++ (sync_directories w config node).2
              ++ (sync_code w config node af sf ev).2))
    ∧ (∀ e, (sync_env_files w config node).1 = Except.ok () →
        (sync_directories w config node).1 = Except.ok () → ro = false →
        (sync_code w config node af sf ev).1 = Except.ok () →
        (build_and_start w config node sf af ro ev).1 = Except.error e →
        execute_deployment w config node sf af ro ev =
          (Except.error e,
            (sync_env_files w config node).2 ++ (sync_directories w config node).2
              ++ (sync_code w config node af sf ev).2
              ++ (build_and_start w config node sf af ro ev).2))
    ∧ (∀ e, (sync_env_files w config node).1 = Except.ok () →
        (sync_directories w config node).1 = Except.ok () → ro = false →
        (sync_code w config node af sf ev).1 = Except.ok () →
        (build_and_start w config node sf af ro ev).1 = Except.ok () →
        (upload_caddy_routes w config node af).1 = Except.error e →
        execute_deployment w config node sf af ro ev =
          (Except.error e,
            (sync_env_files w config node).2 ++ (sync_directories w config node).2
              ++ (sync_code w config node af sf ev).2
              ++ (build_and_start w config node sf af ro ev).2
              ++ (upload_caddy_routes w config node af).2))
    ∧ ((sync_env_files w config node).1 = Except.ok () →
        (sync_directories w config node).1 = Except.ok () →
        (if ro then ((Except.ok () : Except String Unit), ([] : Trace))
            else sync_code w config node af sf ev).1 = Except.ok () →
        (build_and_start w config node sf af ro ev).1 = Except.ok () →
        (if ro then ((Except.ok () : Except String Unit), ([] : Trace))
            else upload_caddy_routes w config node af).1 = Except.ok () →
        execute_deployment w config node sf af ro ev =
          (Except.ok (),
            (sync_env_files w config node).2 ++ (sync_directories w config node).2
              ++ (if ro then ((Except.ok () : Except String Unit), ([] : Trace))
                  else sync_code w config node af sf ev).2
              ++ (build_and_start w config node sf af ro ev).2
              ++ (if ro then ((Except.ok () : Except String Unit), ([] : Trace))
                  else upload_caddy_routes w config node af).2
              ++ (run_health_checks w config node).2))
    ∧ (∀ (cp : CpWorld) (sched : List Nat) (app_name : String)
        (targets : List DeployTarget) (force interactive rolling : Bool)
        (e : String),
        w.connect (targets.headD default).node_id = Except.ok () →
        w.exec (targets.headD default).node_id
          ("mkdir -p " ++ config.deploy_path) = Except.ok () →
        (check_containers w (targets.headD default).node_id config ev force
          interactive).1 = Except.error e →
        handle_deploy_on_targets w cp sched config app_name sf af false ev
            rolling force interactive targets
          = (Except.error e,
             Event.connect (targets.headD default).node_id
               :: Event.exec (targets.headD default).node_id
                   ("mkdir -p " ++ config.deploy_path)
               :: (check_containers w (targets.headD default).node_id config ev
                   force interactive).2))
    ∧ (∀ (cp : CpWorld) (sched : List Nat) (app_name : String)
        (targets : List DeployTarget) (force interactive rolling : Bool),
        targets.length = 1 →
        w.connect (targets.headD default).node_id = Except.ok () →
        w.exec (targets.headD default).node_id
          ("mkdir -p " ++ config.deploy_path) = Except.ok () →
        (if ro then ((Except.ok () : Except String Unit), ([] : Trace))
            else check_containers w (targets.headD default).node_id config ev
              force interactive).1 = Except.ok () →
        handle_deploy_on_targets w cp sched config app_name sf af ro ev
            rolling force interactive targets
          = ((execute_deployment w config (targets.headD default).node_id sf af
              ro ev).1,
             (Event.connect (targets.headD default).node_id
               :: Event.exec (targets.headD default).node_id
                   ("mkdir -p " ++ config.deploy_path)
               :: (if ro then ((Except.ok () : Except String Unit), ([] : Trace))
                   else check_containers w (targets.headD default).node_id
                     config ev force interactive).2)
               ++ (sync_app_record cp config).2
               ++ (execute_deployment w config (targets.headD default).node_id
                   sf af ro ev).2
               ++ (match (sync_app_record cp config).1.2 with
                   | some did => update_deployment_status cp did
                       (execute_deployment w config
                         (targets.headD default).node_id sf af ro ev).1
                   | none => []))) := by
  have h6 := run_health_checks_ok w config node
  refine ⟨h6, ?_, ?_, ?_, ?_, ?_, ?_, ?_, ?_⟩
  · intro e h1
    simp only [execute_deployment, h1]
  · intro e h1 h2
    simp only [execute_deployment, h1, h2]
  · intro e h1 h2 hro h3
    subst hro
    simp only [execute_deployment, h1, h2, h3, if_false, Bool.false_eq_true]
  · intro e h1 h2 hro h3 h4
    subst hro
    simp only [execute_deployment, h1, h2, h3, h4, if_false,
      Bool.false_eq_true]
  · intro e h1 h2 hro h3 h4 h5
    subst hro
    simp only [execute_deployment, h1, h2, h3, h4, h5, if_false,
      Bool.false_eq_true]
  · intro h1 h2 h3 h4 h5
    simp only [execute_deployment, h1, h2, h3, h4, h5, h6]
  · intro cp sched app_name targets force interactive rolling e hc he hchk
    simp only [handle_deploy_on_targets, hc, he, hchk, Bool.false_eq_true,
      if_false]
  · intro cp sched app_name targets force interactive rolling hlen hc he hchk
    have hbeq : (targets.length == 1) = true := by simp [hlen]
    simp only [handle_deploy_on_targets, hc, he, hchk, hbeq, if_true]

/-- The restart command issued by `build_and_start` on a restart-only
deploy (spelled out for the frame theorem below). -/
def restart_cmd (config : OpsToml) (service_filter app_filter : Option String)
    (env_vars : List String) : String :=
  let compose := compose_file_args config
  let svcs := resolve_services config app_filter service_filter
  let compose_arg := if compose.isEmpty then "" else " " ++ compose
  let svc_arg := if svcs.isEmpty then "" else " " ++ svcs
  "cd " ++ config.deploy_path ++ " && " ++ envp env_vars ++ "docker compose"
    ++ compose_arg ++ " restart" ++ svc_arg

/-- C7.  Restart-only deploys still run the env-file and directory
sync steps, replace build-and-start by a single lightweight restart
command, and never run the code-sync/image-pull or routing steps (on
success the trace is exactly env sync ++ dir sync ++ restart ++ health
checks); moreover with no `[[routes]]` and no `[[apps]]` entry carrying
a port, the routing step performs only the fragment-directory creation:
it writes no route fragment and performs no proxy reload. -/
theorem restart_only_skips_code_sync_and_routing
    (w : ExecWorld) (config : OpsToml) (node : Int) (sf af : Option String)
    (ev : List String) :
    build_and_start w config node sf af true ev
      = (w.exec node (restart_cmd config sf af ev),
         [Event.exec node (restart_cmd config sf af ev)])
    ∧ ((sync_env_files w config node).1 = Except.ok () →
       (sync_directories w config node).1 = Except.ok () →
       (build_and_start w config node sf af true ev).1 = Except.ok () →
       execute_deployment w config node sf af true ev
         = (Except.ok (),
            (sync_env_files w config node).2 ++ (sync_directories w config node).2
              ++ (build_and_start w config node sf af true ev).2
              ++ (run_health_checks w config node).2))
    ∧ (config.routes = [] → (∀ a ∈ config.apps, a.port = none) →
       upload_caddy_routes w config node af
         = (w.exec node "mkdir -p /etc/caddy/routes.d",
            [Event.exec node "mkdir -p /etc/caddy/routes.d"])) := by
  refine ⟨?_, ?_, ?_⟩
  · simp only [build_and_start, restart_cmd, if_true]
  · intro h1 h2 h4
    have h6 := run_health_checks_ok w config node
    simp only [execute_deployment, h1, h2, h4, h6, if_true, List.append_nil,
      List.nil_append]
  · intro hr hp
    have hawp : apps_with_port config af = [] := by
      apply List.filter_eq_nil_iff.mpr
      intro a ha
      have hmem : a ∈ config.apps := by
        simp only [apps_with_port] at ha
        match haf : af with
        | none => simpa [haf] using ha
        | some f =>
          simp only [haf] at ha
          exact (List.mem_filter.mp ha).1
      simp [hp a hmem]
    have hleg : upload_caddy_legacy w config node af = (Except.ok (), []) := by
      simp [upload_caddy_legacy, hr]
    simp only [upload_caddy_routes, hleg, hawp]
    cases hmk : w.exec node "mkdir -p /etc/caddy/routes.d" with
    | error e => simp [hmk, hr]
    | ok u => simp [hmk, hr]

/-- C8.  When `pool status` succeeds with a nonempty target list it
reports one row per member, a healthy count equal to the number of
targets whose status is exactly `"healthy"`, and a total equal to the
full list length; in particular a draining member is still listed but
excluded from the healthy numerator, which is then strictly below the
total. -/
theorem pool_status_health_ratio (api : ApiWorld) (target : String)
    (tok : String) (pa : String × String) (resp : DeployTargetsResponse)
    (h1 : api.loadConfigOk = true) (h2 : api.token = some tok)
    (h3 : parse_target target = Except.ok pa)
    (h4 : api.getAppDeployTargets pa.1 pa.2 = Except.ok resp)
    (h5 : resp.targets ≠ []) :
    handle_status api target
      = (Except.ok (some (resp.targets.map pool_row,
            (resp.targets.filter (fun t => t.status == "healthy")).length,
            resp.targets.length)),
         [Event.apiGetAppDeployTargets pa.1 pa.2])
    ∧ ∀ t ∈ resp.targets, t.status = "draining" →
        pool_row t ∈ resp.targets.map pool_row
        ∧ (resp.targets.filter (fun t => t.status == "healthy")).length
            < resp.targets.length := by
  constructor
  · simp only [handle_status, h1, h2, h3, h4, Bool.not_true, Bool.false_eq_true,
      if_false]
    simp [List.isEmpty_iff, h5]
  · intro t ht hd
    refine ⟨List.mem_map_of_mem pool_row ht, ?_⟩
    rw [← List.countP_eq_length_filter]
    refine Nat.lt_of_le_of_ne (List.countP_le_length _) ?_
    intro hlen
    have := (List.countP_eq_length.mp hlen) t ht
    rw [hd] at this
    simp at this

lemma filter_remote_resolve_targets (api : ApiWorld) (config : OpsToml)
    (af : Option String) :
    ((resolve_targets api config af).2).filter isRemote = [] := by
  simp only [resolve_targets]
  split
  · simp
  · split
    · simp
    · split
      · split <;> (try split) <;> simp [isRemote]
      · split
        · simp [isRemote]
        · split
          · simp [isRemote]
          · split <;> simp [isRemote]

lemma filter_remote_auto_allocate_node (api : ApiWorld) (w : ExecWorld)
    (config : OpsToml) (af : Option String) (interactive : Bool) :
    ((auto_allocate_node api w config af interactive).2).filter isRemote = [] := by
  simp only [auto_allocate_node]
  split
  · simp
  · split
    · simp
    · split
      · simp
      · split
        · simp [isRemote]
        · split
          · simp [isRemote]
          · split <;> simp [isRemote]

lemma filter_remote_resolve_phase (api : ApiWorld) (w : ExecWorld)
    (config : OpsToml) (af : Option String) (interactive : Bool) :
    ((resolve_phase api w config af interactive).2).filter isRemote = [] := by
  simp only [resolve_phase]
  split
  · exact filter_remote_resolve_targets ..
  · split
    · simp [List.filter_append, filter_remote_resolve_targets,
        filter_remote_auto_allocate_node]
    · exact filter_remote_resolve_targets ..

lemma apply_filters_error_msg (nf : Option Int) (rf : Option String)
    (targets : List DeployTarget) (msg : String)
    (h : apply_filters nf rf targets = Except.error msg) :
    (∃ n, nf = some n ∧
      msg = "Node " ++ toString n ++ " is not bound to this app")
    ∨ (∃ r, rf = some r ∧
      msg = "No nodes in region \x27" ++ r ++ "\x27 bound to this app") := by
  simp only [apply_filters] at h
  split at h
  · next e he =>
    left
    simp only [filter_node] at he
    split at he
    · exact absurd he (by simp)
    · next nid =>
      split at he
      · simp only [Except.error.injEq] at he
        cases h
        exact ⟨nid, rfl, he.symm⟩
      · exact absurd he (by simp)
  · next t1 ht1 =>
    right
    simp only [filter_region] at h
    split at h
    · exact absurd h (by simp)
    · next r =>
      split at h
      · simp only [Except.error.injEq] at h
        exact ⟨r, rfl, h.symm⟩
      · exact absurd h (by simp)

/-- C2.  A node-id or region filter that matches none of the resolved
targets makes the deploy fail immediately with the explicit
`"Node N is not bound to this app"` / `"No nodes in region R bound to
this app"` error, before any remote session is opened and before any
remote command runs: the whole trace up to that failure contains no
remote event at all. -/
theorem filtered_out_targets_fail_before_remote_io
    (w : World) (sf af : Option String) (ro : Bool) (ev : List String)
    (nf : Option Int) (rf : Option String) (rolling force interactive : Bool)
    (config : OpsToml) (targets0 : List DeployTarget) (msg : String)
    (h0 : w.opsToml = Except.ok config)
    (h1 : (resolve_phase w.api w.ssh config af interactive).1
      = Except.ok targets0)
    (h2 : apply_filters nf rf targets0 = Except.error msg) :
    handle_deploy w sf af ro ev nf rf rolling force interactive
      = (Except.error msg, (resolve_phase w.api w.ssh config af interactive).2)
    ∧ ((handle_deploy w sf af ro ev nf rf rolling force interactive).2).filter
        isRemote = []
    ∧ ((∃ n, nf = some n ∧
          msg = "Node " ++ toString n ++ " is not bound to this app")
       ∨ (∃ r, rf = some r ∧
          msg = "No nodes in region \x27" ++ r ++ "\x27 bound to this app")) := by
  have hmain : handle_deploy w sf af ro ev nf rf rolling force interactive
      = (Except.error msg, (resolve_phase w.api w.ssh config af interactive).2) := by
    simp only [handle_deploy, h0, h1, h2]
  refine ⟨hmain, ?_, apply_filters_error_msg nf rf targets0 msg h2⟩
  rw [hmain]
  exact filter_remote_resolve_phase ..

lemma handle_deploy_on_targets_cp_irrelevant (ssh : ExecWorld)
    (cp cp' : CpWorld) (sched : List Nat) (config : OpsToml)
    (app_name : String) (sf af : Option String) (ro : Bool)
    (ev : List String) (rolling force interactive : Bool)
    (targets : List DeployTarget) :
    (handle_deploy_on_targets ssh cp sched config app_name sf af ro ev
        rolling force interactive targets).1
      = (handle_deploy_on_targets ssh cp' sched config app_name sf af ro ev
          rolling force interactive targets).1 := by
  simp only [handle_deploy_on_targets]
  cases hc : ssh.connect (targets.headD default).node_id with
  | error e => simp
  | ok _ =>
    cases he : ssh.exec (targets.headD default).node_id
        ("mkdir -p " ++ config.deploy_path) with
    | error e => simp
    | ok _ =>
      cases hk : (if ro then ((Except.ok () : Except String Unit), ([] : Trace))
          else check_containers ssh (targets.headD default).node_id config ev
            force interactive).1 with
      | error e => simp [hk]
      | ok _ =>
        simp only [hk]
        split
        · simp
        · split
          · simp
          · simp

/-- C9.  Control-plane record operations are best-effort: (i) the
deploy's returned result is identical under any two control-plane
record worlds — an app-sync, record-creation or status-update failure
can never change it; (ii) an app-sync failure is swallowed into
`(none, none)` with a printed warning; (iii) a record-creation failure
is swallowed into `(app_id, none)` with a printed warning; (iv) a
status-update API failure is swallowed with a printed warning after the
one update attempt. -/
theorem control_plane_failures_never_block_deploy
    (w : World) (cp' : CpWorld) (sf af : Option String) (ro : Bool)
    (ev : List String) (nf : Option Int) (rf : Option String)
    (rolling force interactive : Bool) :
    (handle_deploy { w with cp := cp' } sf af ro ev nf rf rolling force
        interactive).1
      = (handle_deploy w sf af ro ev nf rf rolling force interactive).1
    ∧ (∀ (cp : CpWorld) (config : OpsToml) (tok e : String),
        cp.loadConfigOk = true → cp.token = some tok →
        cp.syncApp = Except.error e →
        sync_app_record cp config
          = ((none, none),
             [Event.apiSyncApp, Event.warn ("⚠ Sync failed: " ++ e)]))
    ∧ (∀ (cp : CpWorld) (config : OpsToml) (tok e : String) (r : SyncAppResult),
        cp.loadConfigOk = true → cp.token = some tok →
        cp.syncApp = Except.ok r →
        cp.createDeployment r.app_id = Except.error e →
        sync_app_record cp config
          = ((some r.app_id, none),
             [Event.apiSyncApp, Event.apiCreateDeployment r.app_id,
              Event.warn ("⚠ Deployment record failed: " ++ e)]))
    ∧ (∀ (cp : CpWorld) (did : Int) (tok msg e : String),
        cp.loadConfigOk = true → cp.token = some tok →
        cp.updateDeployment did "failed" = Except.error e →
        update_deployment_status cp did (Except.error msg)
          = [Event.apiUpdateDeployment did "failed" (some msg),
             Event.warn ("⚠ Failed to update deployment status: " ++ e)]) := by
  refine ⟨?_, ?_, ?_, ?_⟩
  · simp only [handle_deploy]
    cases ht : w.opsToml with
    | error e => rfl
    | ok config =>
      simp only []
      cases hr : (resolve_phase w.api w.ssh config af interactive).1 with
      | error e => simp only [hr]
      | ok targets0 =>
        simp only [hr]
        cases hf : apply_filters nf rf targets0 with
        | error e => simp only [hf]
        | ok targets =>
          simp only [hf]
          exact handle_deploy_on_targets_cp_irrelevant w.ssh cp' w.cp w.schedule
            config (resolve_app_name config) sf af ro ev rolling force
            interactive targets
  · intro cp config tok e hload htok hsync
    simp [sync_app_record, hload, htok, hsync]
  · intro cp config tok e r hload htok hsync hcreate
    simp [sync_app_record, hload, htok, hsync, hcreate]
  · intro cp did tok msg e hload htok hupd
    simp [update_deployment_status, hload, htok, hupd]

/-- C6.  Exit-code policy of `ops deploy` under `main`'s error
handling: an invalid configuration exits 1; a resolution failure exits
1; an empty post-filter target set exits 1; otherwise the command's
result is exactly the deployment phase's result, whose exit code is 0
for a fully successful single-target pipeline and, for multi-target
runs (rolling or parallel), 0 precisely when the failed list is empty
and 1 as soon as at least one target failed. -/
theorem deploy_exit_code_policy
    (w : World) (sf af : Option String) (ro : Bool) (ev : List String)
    (nf : Option Int) (rf : Option String) (rolling force interactive : Bool) :
    (∀ e, w.opsToml = Except.error e →
      exit_code (handle_deploy w sf af ro ev nf rf rolling force
        interactive).1 = 1)
    ∧ (∀ config e, w.opsToml = Except.ok config →
        (resolve_phase w.api w.ssh config af interactive).1 = Except.error e →
        exit_code (handle_deploy w sf af ro ev nf rf rolling force
          interactive).1 = 1)
    ∧ (∀ config targets0 msg, w.opsToml = Except.ok config →
        (resolve_phase w.api w.ssh config af interactive).1
          = Except.ok targets0 →
        apply_filters nf rf targets0 = Except.error msg →
        exit_code (handle_deploy w sf af ro ev nf rf rolling force
          interactive).1 = 1)
    ∧ (∀ config targets0 targets, w.opsToml = Except.ok config →
        (resolve_phase w.api w.ssh config af interactive).1
          = Except.ok targets0 →
        apply_filters nf rf targets0 = Except.ok targets →
        (handle_deploy w sf af ro ev nf rf rolling force interactive).1
          = (handle_deploy_on_targets w.ssh w.cp w.schedule config
              (resolve_app_name config) sf af ro ev rolling force interactive
              targets).1)
    ∧ (∀ config app_name targets,
        w.ssh.connect (targets.headD default).node_id = Except.ok () →
        w.ssh.exec (targets.headD default).node_id
          ("mkdir -p " ++ config.deploy_path) = Except.ok () →
        (if ro then ((Except.ok () : Except String Unit), ([] : Trace))
            else check_containers w.ssh (targets.headD default).node_id config
              ev force interactive).1 = Except.ok () →
        (targets.length = 1 →
          (handle_deploy_on_targets w.ssh w.cp w.schedule config app_name sf af
              ro ev rolling force interactive targets).1
            = (execute_deployment w.ssh config (targets.headD default).node_id
                sf af ro ev).1)
        ∧ (targets.length ≠ 1 → rolling = true →
          exit_code (handle_deploy_on_targets w.ssh w.cp w.schedule config
              app_name sf af ro ev rolling force interactive targets).1
            = if (rolling_go w.ssh config sf af ro ev targets).2.1.isEmpty
              then 0 else 1)
        ∧ (targets.length ≠ 1 → rolling = false →
          exit_code (handle_deploy_on_targets w.ssh w.cp w.schedule config
              app_name sf af ro ev rolling force interactive targets).1
            = if (parallel_join (pickPerm w.schedule (targets.map
                  (parallel_task w.ssh config sf af ro ev)))).2.isEmpty
              then 0 else 1)) := by
  refine ⟨?_, ?_, ?_, ?_, ?_⟩
  · intro e h
    simp only [handle_deploy, h]
    rfl
  · intro config e h0 h1
    simp only [handle_deploy, h0, h1]
    rfl
  · intro config targets0 msg h0 h1 h2
    simp only [handle_deploy, h0, h1, h2]
    rfl
  · intro config targets0 targets h0 h1 h2
    simp only [handle_deploy, h0, h1, h2]
  · intro config app_name targets hc he hchk
    refine ⟨?_, ?_, ?_⟩
    · intro hlen
      simp only [handle_deploy_on_targets, hc, he, hchk, hlen]
      rfl
    · intro hlen hroll
      have hbeq : (targets.length == 1) = false := by
        simp [hlen]
      simp only [handle_deploy_on_targets, hc, he, hchk, hbeq, hroll,
        Bool.false_eq_true, if_false, if_true]
      split <;> rfl
    · intro hlen hroll
      have hbeq : (targets.length == 1) = false := by
        simp [hlen]
      simp only [handle_deploy_on_targets, hc, he, hchk, hbeq, hroll,
        Bool.false_eq_true, if_false]
      split <;> rfl

/-! ### Container-check placement lemmas -/

lemma countP_ps_setup_deploy_key (w : ExecWorld) (node : Int) (p q : String) :
    ((setup_deploy_key w node p q).2).countP isPs = 0 := by
  simp only [setup_deploy_key]
  split
  · simp
  · split
    · simp
    · split
      · simp [isPs, List.countP_cons, -List.countP_eq_zero]
      · split <;> simp [isPs, List.countP_cons, -List.countP_eq_zero]

lemma countP_ps_sync_code (w : ExecWorld) (config : OpsToml) (node : Int)
    (af sf : Option String) (ev : List String) :
    ((sync_code w config node af sf ev).2).countP isPs = 0 := by
  have hgit : ((("test -d " ++ config.deploy_path
      ++ "/.git && echo \x27exists\x27 || echo \x27missing\x27") == ps_cmd))
      = false := rfl
  simp only [sync_code]
  split
  · split
    · simp
    · next git hg =>
      split
      · simp [isPs, List.countP_cons, hgit, -List.countP_eq_zero]
      · split
        · simp [isPs, List.countP_cons, hgit, -List.countP_eq_zero]
        · cases hk : git.ssh_key with
          | none =>
            simp [hk, isPs, List.countP_cons, hgit, -List.countP_eq_zero]
          | some key_path =>
            have hs := countP_ps_setup_deploy_key w node (w.tilde key_path)
              (resolve_app_name config)
            simp only [hk]
            split <;>
              simp [isPs, List.countP_cons, List.countP_append, hs, hgit,
                -List.countP_eq_zero]
  · simp [isPs, List.countP_cons, -List.countP_eq_zero]
  · split
    · split <;> (try split) <;> (try split) <;>
        simp [isPs, List.countP_cons, -List.countP_eq_zero]
    · split <;> (try split) <;> (try split) <;>
        simp [isPs, List.countP_cons, List.countP_append, -List.countP_eq_zero]
  · simp

lemma countP_ps_sync_env_files (w : ExecWorld) (config : OpsToml) (node : Int) :
    ((sync_env_files w config node).2).countP isPs = 0 := by
  simp only [sync_env_files]
  split
  · simp
  · generalize config.env_files = l
    induction l with
    | nil => simp [sync_env_files_go]
    | cons ef rest ih =>
      simp only [sync_env_files_go]
      split
      · split
        · simp
        · split <;> simp [isPs, List.countP_cons, ih, -List.countP_eq_zero]
      · exact ih

lemma countP_ps_sync_directories (w : ExecWorld) (config : OpsToml) (node : Int) :
    ((sync_directories w config node).2).countP isPs = 0 := by
  simp only [sync_directories]
  split
  · simp
  · generalize config.sync = l
    induction l with
    | nil => simp [sync_directories_go]
    | cons s rest ih =>
      simp only [sync_directories_go]
      split
      · split <;> simp [isPs, List.countP_cons, ih, -List.countP_eq_zero]
      · exact ih

lemma countP_ps_build_and_start (w : ExecWorld) (config : OpsToml) (node : Int)
    (sf af : Option String) (ro : Bool) (ev : List String) :
    ((build_and_start w config node sf af ro ev).2).countP isPs = 0 := by
  simp only [build_and_start]
  split
  · simp [isPs, List.countP_cons, -List.countP_eq_zero]
  · split
    · split <;> simp [isPs, List.countP_cons, -List.countP_eq_zero]
    · simp [isPs, List.countP_cons, -List.countP_eq_zero]

lemma countP_ps_upload_caddy_routes (w : ExecWorld) (config : OpsToml)
    (node : Int) (af : Option String) :
    ((upload_caddy_routes w config node af).2).countP isPs = 0 := by
  have hleg : ((upload_caddy_legacy w config node af).2).countP isPs = 0 := by
    simp only [upload_caddy_legacy]
    split
    · simp
    · split
      · simp [isPs, List.countP_cons, -List.countP_eq_zero]
      · generalize config.routes = l
        induction l with
        | nil => simp [upload_route_frags]
        | cons r rest ih =>
          simp only [upload_route_frags]
          split <;> simp [isPs, List.countP_cons, ih, -List.countP_eq_zero]
  have happ0 : ∀ l : List AppDef,
      ((upload_app_frags w node config.project l).2).countP isPs = 0 := by
    intro l
    induction l with
    | nil => simp [upload_app_frags]
    | cons a rest ih =>
      simp only [upload_app_frags]
      split <;> simp [isPs, List.countP_cons, ih, -List.countP_eq_zero]
  have happ : ∀ l : List AppDef,
      ((if l.isEmpty then ((Except.ok () : Except String Unit), ([] : Trace))
        else upload_app_frags w node config.project l).2).countP isPs = 0 := by
    intro l
    split
    · simp
    · exact happ0 l
  simp only [upload_caddy_routes]
  split
  · simp [isPs, List.countP_cons, -List.countP_eq_zero]
  · split
    · simp only [List.countP_cons, hleg]
      simp [isPs]
    · split
      · simp only [List.countP_cons, List.countP_append, hleg, happ]
        simp [isPs]
      · split <;>
          (simp only [List.countP_cons, List.countP_append, hleg, happ]
           simp [isPs])

lemma countP_ps_run_health_checks (w : ExecWorld) (config : OpsToml)
    (node : Int) :
    ((run_health_checks w config node).2).countP isPs = 0 := by
  simp only [run_health_checks]
  split
  · simp
  · generalize config.healthchecks = l
    induction l with
    | nil => simp [run_health_checks_go]
    | cons hc rest ih =>
      have hb : ((("for i in 1 2 3 4 5 6 7 8 9 10; do curl -sf " ++ hc.url
          ++ " > /dev/null && echo \x27OK\x27 && exit 0; sleep 2; done; echo \x27FAIL\x27; exit 1")
          == ps_cmd)) = false := rfl
      simp only [run_health_checks_go]
      split <;> (try split) <;>
        simp [isPs, List.countP_cons, ih, hb, -List.countP_eq_zero]

lemma countP_ps_execute_deployment (w : ExecWorld) (config : OpsToml)
    (node : Int) (sf af : Option String) (ro : Bool) (ev : List String) :
    ((execute_deployment w config node sf af ro ev).2).countP isPs = 0 := by
  have c1 := countP_ps_sync_env_files w config node
  have c2 := countP_ps_sync_directories w config node
  have c4 := countP_ps_build_and_start w config node sf af ro ev
  have c6 := countP_ps_run_health_checks w config node
  have c3i : ((if ro then ((Except.ok () : Except String Unit), ([] : Trace))
      else sync_code w config node af sf ev).2).countP isPs = 0 := by
    split
    · simp
    · exact countP_ps_sync_code ..
  have c5i : ((if ro then ((Except.ok () : Except String Unit), ([] : Trace))
      else upload_caddy_routes w config node af).2).countP isPs = 0 := by
    split
    · simp
    · exact countP_ps_upload_caddy_routes ..
  simp only [execute_deployment]
  split
  · exact c1
  · split
    · simp only [List.countP_append, c1, c2, Nat.add_zero]
    · split
      · simp only [List.countP_append, c1, c2, c3i, Nat.add_zero]
      · split
        · simp only [List.countP_append, c1, c2, c3i, c4, Nat.add_zero]
        · split
          · simp only [List.countP_append, c1, c2, c3i, c4, c5i, Nat.add_zero]
          · split <;>
              simp only [List.countP_append, c1, c2, c3i, c4, c5i, c6,
                Nat.add_zero]

lemma countP_ps_rolling_go (w : ExecWorld) (config : OpsToml)
    (sf af : Option String) (ro : Bool) (ev : List String)
    (targets : List DeployTarget) :
    ((rolling_go w config sf af ro ev targets).2.2).countP isPs = 0 := by
  induction targets with
  | nil => simp [rolling_go]
  | cons t rest ih =>
    simp only [rolling_go]
    split
    · simp [isPs, List.countP_cons, ih, -List.countP_eq_zero]
    · split
      · simp [isPs, List.countP_cons, ih, -List.countP_eq_zero]
      · split <;>
          simp [isPs, List.countP_cons, List.countP_append, ih,
            countP_ps_execute_deployment, -List.countP_eq_zero]

lemma countP_ps_parallel_task (w : ExecWorld) (config : OpsToml)
    (sf af : Option String) (ro : Bool) (ev : List String) (t : DeployTarget) :
    ((parallel_task w config sf af ro ev t).2).countP isPs = 0 := by
  simp only [parallel_task]
  split
  · simp [isPs, List.countP_cons, -List.countP_eq_zero]
  · split
    · simp [isPs, List.countP_cons, -List.countP_eq_zero]
    · simp [isPs, List.countP_cons, countP_ps_execute_deployment,
        -List.countP_eq_zero]

lemma countP_ps_sync_app_record (cp : CpWorld) (config : OpsToml) :
    ((sync_app_record cp config).2).countP isPs = 0 := by
  simp only [sync_app_record]
  split
  · simp [isPs, List.countP_cons, -List.countP_eq_zero]
  · split
    · simp [isPs, List.countP_cons, -List.countP_eq_zero]
    · split <;> (try split) <;>
        simp [isPs, List.countP_cons, -List.countP_eq_zero]

lemma countP_ps_update_deployment_status (cp : CpWorld) (did : Int)
    (r : Except String Unit) :
    (update_deployment_status cp did r).countP isPs = 0 := by
  simp only [update_deployment_status]
  split
  · simp
  · split <;> simp [isPs, List.countP_cons, -List.countP_eq_zero]

lemma countP_ps_print_deploy_summary (cp : CpWorld) (app_name : String)
    (sc : Nat) (failed : List String) (did : Option Int) :
    (print_deploy_summary cp app_name sc failed did).countP isPs = 0 := by
  simp only [print_deploy_summary]
  split
  · exact countP_ps_update_deployment_status ..
  · simp

/-- `check_containers` always enumerates the remote containers exactly
once: its trace's container-listing events are exactly one `docker ps`
captured on the given session. -/
lemma filter_ps_check_containers (w : ExecWorld) (node : Int)
    (config : OpsToml) (ev : List String) (force interactive : Bool) :
    ((check_containers w node config ev force interactive).2).filter isPs
      = [Event.execOutput node ps_cmd] := by
  have hsv : ((("cd " ++ config.deploy_path ++ " && " ++ envp ev
      ++ "docker compose"
      ++ (if (compose_file_args config).isEmpty then ""
          else " " ++ compose_file_args config)
      ++ " config --services 2>/dev/null") == ps_cmd)) = false := rfl
  have hne_t : ("cd " ++ config.deploy_path ++ " && " ++ envp ev
      ++ "docker compose" ++ " config --services 2>/dev/null") ≠ ps_cmd :=
    ne_of_beq_false rfl
  have hne_f : ∀ s : String, ("cd " ++ config.deploy_path ++ " && " ++ envp ev
      ++ "docker compose" ++ (" " ++ s)
      ++ " config --services 2>/dev/null") ≠ ps_cmd :=
    fun s => ne_of_beq_false rfl
  have hps : ((ps_cmd == ps_cmd)) = true := rfl
  simp only [check_containers]
  split
  · simp [List.filter_cons, isPs, hsv, hps, hne_t, hne_f]
  · split
    · split <;>
        simp [List.filter_cons, List.filter_append, isPs, hsv, hps, hne_t, hne_f]
    · split <;> (try split) <;>
        simp [List.filter_cons, List.filter_append, isPs, hsv, hps, hne_t, hne_f]

lemma countP_zero_flatten (p : Event → Bool) :
    ∀ L : List Trace, (∀ l ∈ L, l.countP p = 0) → (L.flatten).countP p = 0 := by
  intro L
  induction L with
  | nil => simp
  | cons x xs ih =>
    intro h
    simp only [List.flatten_cons, List.countP_append]
    rw [h x (List.mem_cons_self ..), ih (fun l hl => h l (List.mem_cons_of_mem _ hl))]

lemma countP_ps_parallel_fanout (w : ExecWorld) (config : OpsToml)
    (sf af : Option String) (ro : Bool) (ev : List String)
    (targets : List DeployTarget) (sched : List Nat) :
    (((pickPerm sched (targets.map
        (parallel_task w config sf af ro ev))).map Prod.snd).flatten).countP
      isPs = 0 := by
  apply countP_zero_flatten
  intro l hl
  obtain ⟨x, hx, rfl⟩ := List.mem_map.mp hl
  have hx' : x ∈ targets.map (parallel_task w config sf af ro ev) :=
    (pickPerm_perm sched _).mem_iff.mp hx
  obtain ⟨t, _, rfl⟩ := List.mem_map.mp hx'
  exact countP_ps_parallel_task ..

/-- C10 (amended).  For every multi-target (N ≠ 1), non-restart-only
deploy whose pre-flight session to the first resolved target opens and
whose deploy-path creation succeeds, the container check runs exactly
once — its single container enumeration is issued on the first resolved
target's session — strictly before the fan-out, and no per-target
execution (rolling or parallel) nor any record-keeping step ever
enumerates containers again. -/
theorem container_check_once_before_fanout
    (w : World) (config : OpsToml) (app_name : String) (sf af : Option String)
    (ev : List String) (rolling force interactive : Bool)
    (targets : List DeployTarget)
    (hne : targets.length ≠ 1)
    (hc : w.ssh.connect (targets.headD default).node_id = Except.ok ())
    (he : w.ssh.exec (targets.headD default).node_id
      ("mkdir -p " ++ config.deploy_path) = Except.ok ())
    (hchk : (check_containers w.ssh (targets.headD default).node_id config ev
      force interactive).1 = Except.ok ()) :
    ∃ (res : Except String Unit) (fan trs : Trace),
      handle_deploy_on_targets w.ssh w.cp w.schedule config app_name sf af
          false ev rolling force interactive targets
        = (res,
           (Event.connect (targets.headD default).node_id
             :: Event.exec (targets.headD default).node_id
                 ("mkdir -p " ++ config.deploy_path)
             :: (check_containers w.ssh (targets.headD default).node_id config
                 ev force interactive).2)
             ++ (sync_app_record w.cp config).2 ++ fan ++ trs)
      ∧ ((check_containers w.ssh (targets.headD default).node_id config ev
          force interactive).2).filter isPs
          = [Event.execOutput (targets.headD default).node_id ps_cmd]
      ∧ fan.countP isPs = 0
      ∧ ((sync_app_record w.cp config).2).countP isPs = 0
      ∧ trs.countP isPs = 0 := by
  have hbeq : (targets.length == 1) = false := by simp [hne]
  cases hroll : rolling with
  | true =>
    refine ⟨(if (rolling_go w.ssh config sf af false ev targets).2.1.isEmpty
        then Except.ok ()
        else Except.error
          (toString (rolling_go w.ssh config sf af false ev targets).2.1.length
            ++ " node(s) failed deployment")),
      (rolling_go w.ssh config sf af false ev targets).2.2,
      print_deploy_summary w.cp app_name
        (rolling_go w.ssh config sf af false ev targets).1
        (rolling_go w.ssh config sf af false ev targets).2.1
        (sync_app_record w.cp config).1.2, ?_, ?_, ?_, ?_, ?_⟩
    · simp only [handle_deploy_on_targets, hc, he, hchk, hbeq, Bool.false_eq_true,
        if_false, if_true]
    · exact filter_ps_check_containers ..
    · exact countP_ps_rolling_go ..
    · exact countP_ps_sync_app_record ..
    · exact countP_ps_print_deploy_summary ..
  | false =>
    refine ⟨(if (parallel_join (pickPerm w.schedule (targets.map
          (parallel_task w.ssh config sf af false ev)))).2.isEmpty
        then Except.ok ()
        else Except.error
          (toString (parallel_join (pickPerm w.schedule (targets.map
            (parallel_task w.ssh config sf af false ev)))).2.length
            ++ " node(s) failed deployment")),
      ((pickPerm w.schedule (targets.map
        (parallel_task w.ssh config sf af false ev))).map Prod.snd).flatten,
      print_deploy_summary w.cp app_name
        (parallel_join (pickPerm w.schedule (targets.map
          (parallel_task w.ssh config sf af false ev)))).1
        (parallel_join (pickPerm w.schedule (targets.map
          (parallel_task w.ssh config sf af false ev)))).2
        (sync_app_record w.cp config).1.2, ?_, ?_, ?_, ?_, ?_⟩
    · simp only [handle_deploy_on_targets, hc, he, hchk, hbeq, Bool.false_eq_true,
        if_false]
    · exact filter_ps_check_containers ..
    · exact countP_ps_parallel_fanout ..
    · exact countP_ps_sync_app_record ..
    · exact countP_ps_print_deploy_summary ..

/-- C10 (counterexample to the unamended claim).  The restart-only
three-node rolling demo deploy is a multi-target deploy that creates a
deployment record and succeeds, yet its trace contains zero container
enumerations — the pre-flight container check did not execute even
once. -/
theorem container_check_skipped_on_restart_only :
    (handle_deploy demo_world none none true [] none none true false false).1
      = Except.ok ()
    ∧ ((handle_deploy demo_world none none true [] none none true false
        false).2).filter isPs = []
    ∧ demo_targets.length = 3
    ∧ (resolve_phase demo_api demo_ssh demo_config none false).1
      = Except.ok demo_targets := by
  exact ⟨rfl, rfl, rfl, rfl⟩

/-! ### Witnesses -/

theorem filtered_out_targets_fail_before_remote_io_witness :
    handle_deploy demo_world none none false [] none (some "us-east") true
        false false
      = (Except.error "No nodes in region \x27us-east\x27 bound to this app",
         (resolve_phase demo_world.api demo_world.ssh demo_config none
           false).2)
    ∧ ((handle_deploy demo_world none none false [] none (some "us-east") true
        false false).2).filter isRemote = [] := by
  have h := filtered_out_targets_fail_before_remote_io demo_world none none
    false [] none (some "us-east") true false false demo_config demo_targets
    "No nodes in region \x27us-east\x27 bound to this app" rfl rfl rfl
  exact ⟨h.1, h.2.1⟩

theorem single_target_pipeline_order_and_isolation_witness :
    (execute_deployment demo_ssh demo_config 1 none none false []).1
      = Except.ok () := by
  have h := (single_target_pipeline_order_and_isolation demo_ssh demo_config 1
    none none false []).2.2.2.2.2.2.1 rfl rfl rfl rfl rfl
  rw [h]

theorem parallel_mode_attempts_all_targets_witness :
    (parallel_join (pickPerm [1, 0] (demo_targets.map
        (parallel_task demo_ssh_connfail demo_config none none false [])))).1
      + (parallel_join (pickPerm [1, 0] (demo_targets.map
          (parallel_task demo_ssh_connfail demo_config none none false
            [])))).2.length
      = 3
    ∧ (parallel_task demo_ssh_connfail demo_config none none false []
        (demo_target 2 "eu")).1
      = ("n2.example", some "eu", Except.error "ssh unreachable") := by
  have h := parallel_mode_attempts_all_targets demo_ssh_connfail demo_config
    none none false [] demo_targets [1, 0]
  refine ⟨by simpa using h.2.1, ?_⟩
  have h2 := h.2.2 (demo_target 2 "eu") (by decide) "ssh unreachable" rfl
  simpa using h2

theorem deploy_exit_code_policy_witness :
    exit_code (handle_deploy_on_targets demo_world.ssh demo_world.cp
        demo_world.schedule demo_config "redq" none none false [] true false
        false demo_targets).1 = 1 := by
  have h := ((deploy_exit_code_policy demo_world none none false [] none none
    true false false).2.2.2.2 demo_config "redq" demo_targets rfl rfl
    rfl).2.1 (by decide) rfl
  rw [h]
  rfl

theorem restart_only_skips_code_sync_and_routing_witness :
    (execute_deployment demo_ssh demo_config 1 none none true []).1
      = Except.ok ()
    ∧ upload_caddy_routes demo_ssh demo_config 1 none
      = (demo_ssh.exec 1 "mkdir -p /etc/caddy/routes.d",
         [Event.exec 1 "mkdir -p /etc/caddy/routes.d"]) := by
  have h := restart_only_skips_code_sync_and_routing demo_ssh demo_config 1
    none none []
  refine ⟨?_, h.2.2 rfl ?_⟩
  · have h2 := h.2.1 rfl rfl rfl
    rw [h2]
  · intro a ha
    simp [demo_config] at ha

/-- Pool-status demo: one healthy and one draining member. -/
def demo_pool_resp : DeployTargetsResponse :=
  { mode := "pool", node_group_id := some 9, lb_strategy := some "round-robin",
    targets := [demo_target 1 "eu",
      { demo_target 7 "eu" with status := "draining" }] }

/-- Control-plane world serving the pool-status demo. -/
def demo_pool_api : ApiWorld :=
  { loadConfigOk := true, token := some "tok",
    getAppDeployTargets := fun _ _ => Except.ok demo_pool_resp,
    listNodes := Except.ok [], bindNodeByName := fun _ _ _ => Except.error "unused" }

theorem pool_status_health_ratio_witness :
    handle_status demo_pool_api "api.RedQ"
      = (Except.ok (some (demo_pool_resp.targets.map pool_row,
            (demo_pool_resp.targets.filter
              (fun t => t.status == "healthy")).length,
            demo_pool_resp.targets.length)),
         [Event.apiGetAppDeployTargets "RedQ" "api"])
    ∧ (demo_pool_resp.targets.filter (fun t => t.status == "healthy")).length
        < demo_pool_resp.targets.length := by
  have h := pool_status_health_ratio demo_pool_api "api.RedQ" "tok"
    ("RedQ", "api") demo_pool_resp rfl rfl rfl rfl (by decide)
  refine ⟨h.1, ?_⟩
  exact (h.2 { demo_target 7 "eu" with status := "draining" } (by decide)
    rfl).2

/-- A control-plane record world where every record operation fails. -/
def demo_cp_down : CpWorld :=
  { loadConfigOk := true, token := some "tok",
    syncApp := Except.error "cp down",
    createDeployment := fun _ => Except.error "cp down",
    updateDeployment := fun _ _ => Except.error "cp down" }

theorem control_plane_failures_never_block_deploy_witness :
    (handle_deploy { demo_world with cp := demo_cp_down } none none false []
        none none true false false).1
      = (handle_deploy demo_world none none false [] none none true false
          false).1
    ∧ sync_app_record demo_cp_down demo_config
      = ((none, none),
         [Event.apiSyncApp, Event.warn "⚠ Sync failed: cp down"]) := by
  have h := control_plane_failures_never_block_deploy demo_world demo_cp_down
    none none false [] none none true false false
  exact ⟨h.1, h.2.1 demo_cp_down demo_config "tok" "cp down" rfl rfl rfl⟩

theorem container_check_once_before_fanout_witness :
    ((handle_deploy_on_targets demo_world.ssh demo_world.cp
        demo_world.schedule demo_config "redq" none none false [] true false
        false demo_targets).2).countP isPs = 1 := by
  obtain ⟨res, fan, trs, heq, hchk, hfan, hsync, htrs⟩ :=
    container_check_once_before_fanout demo_world demo_config "redq" none none
      [] true false false demo_targets (by decide) rfl rfl rfl
  rw [heq]
  have hchk' : ((check_containers demo_world.ssh
      (demo_targets.headD default).node_id demo_config [] false false).2).countP
      isPs = 1 := by
    rw [List.countP_eq_length_filter, hchk]
    rfl
  simp [List.countP_cons, List.countP_append, isPs, hfan, hsync, htrs,
    -List.countP_eq_zero]
  simpa using hchk'


end Ops
